import Mathlib

/-!
Shallow embedding of the safety-evaluation core of the van-onboard-computer
firmware (files `SystemData.h`, `config.h`, `AlertSystem.h`, `SensorManager.h`,
`MQ7Sensor.h`, `MQ2Sensor.h`).

Modelling conventions:
* C `float` values are modelled as `ℚ`; every comparison the firmware performs
  on them is against an exactly representable constant, so the order structure
  is preserved.  `isnan` can never hold on `ℚ` and is dropped.
* `unsigned long` millisecond clocks are modelled as `ℕ`; `now - t0` is `ℕ`
  truncated subtraction, which agrees with the 32-bit unsigned subtraction of
  the source whenever `t0 ≤ now` (the monotone-clock situation; theorems that
  depend on elapsed-time arithmetic carry that hypothesis explicitly).
* `millis()` and `analogRead(pin)` are ambient inputs of the firmware; the
  embedded functions take them as explicit `now`/`raw` arguments.
* The sensor transducer curve `pow(x, e)` with a non-integral exponent (leaf
  "transducer math", out of the core scope per the spec) is abstracted as an
  explicit function argument (`powCurve`, `lpgCurve`, ...); every theorem that
  touches it is universally quantified over that argument.
* Hardware side effects (`buzzer->tone`, `buzzer->stop`, `pinMode`) are leaf
  actuations; the on/off state the firmware tracks for them (`buzzerState`)
  is kept, the hardware call itself is not modelled.
-/

-- ============================================
-- Enumerations (SystemData.h)
-- ============================================

/-- Severity of an alert (`enum class AlertLevel`, SystemData.h lines 58-64).
The numeric values 0..4 of the C enum are reproduced by `toNat`. -/
inductive AlertLevel where
  | none
  | info
  | warning
  | danger
  | critical
deriving DecidableEq, Repr

/-- Underlying integer of the C enum `AlertLevel` (NONE = 0 .. CRITICAL = 4). -/
def AlertLevel.toNat : AlertLevel → ℕ
  | .none => 0
  | .info => 1
  | .warning => 2
  | .danger => 3
  | .critical => 4

/-- The C++ comparison `level > currentLevel` compares the underlying enum
integers; we equip `AlertLevel` with the linear order lifted along `toNat`. -/
instance : LinearOrder AlertLevel :=
  LinearOrder.lift' AlertLevel.toNat
    (by intro a b h; cases a <;> cases b <;> first | rfl | simp [AlertLevel.toNat] at h)

/-- Kind of alert (`enum class AlertType`, SystemData.h lines 70-85). -/
inductive AlertType where
  | NONE
  | CO_HIGH
  | GPL_HIGH
  | SMOKE_HIGH
  | VOLTAGE_12V_LOW
  | VOLTAGE_12V_HIGH
  | VOLTAGE_5V_LOW
  | VOLTAGE_5V_HIGH
  | CURRENT_12V_HIGH
  | CURRENT_5V_HIGH
  | TEMP_HIGH
  | TEMP_LOW
  | HUMIDITY_HIGH
  | TILT_HIGH
deriving DecidableEq, Repr

/-- Operating mode (`enum class SystemMode`, SystemData.h lines 30-35). -/
inductive SystemMode where
  | MODE_PREHEAT
  | MODE_NORMAL
  | MODE_SETTINGS
  | MODE_ALERT
deriving DecidableEq, Repr

-- ============================================
-- Data structures (SystemData.h)
-- ============================================

/-- One active alert (`struct Alert`, SystemData.h lines 204-212). -/
structure Alert where
  type : AlertType
  level : AlertLevel
  value : ℚ
  threshold : ℚ
  timestamp : ℕ
  active : Bool
  message : String

/-- Global alert state (`struct AlertState`, SystemData.h lines 218-226).
The C array `Alert alerts[10]` is modelled as a total function `Fin 10 → Alert`. -/
structure AlertState where
  currentLevel : AlertLevel
  primaryAlert : AlertType
  activeAlertCount : ℕ
  alerts : Fin 10 → Alert
  buzzerActive : Bool
  blockNavigation : Bool
  lastBuzzerToggle : ℕ

/-- Environmental readings (`struct EnvironmentData`, SystemData.h lines 95-114). -/
structure EnvironmentData where
  tempInterior : ℚ
  tempExterior : ℚ
  humidity : ℚ
  pressure : ℚ
  dewPoint : ℚ
  tempIntTimestamp : ℕ
  tempExtTimestamp : ℕ
  tempIntValid : Bool
  tempExtValid : Bool
  humidityValid : Bool
  pressureValid : Bool

/-- Electrical readings (`struct PowerData`, SystemData.h lines 120-141). -/
structure PowerData where
  voltage12V : ℚ
  current12V : ℚ
  power12V : ℚ
  voltage5V : ℚ
  current5V : ℚ
  power5V : ℚ
  powerTotal : ℚ
  voltage12VTimestamp : ℕ
  voltage5VTimestamp : ℕ
  voltage12VValid : Bool
  voltage5VValid : Bool

/-- Gas-safety readings (`struct SafetyData`, SystemData.h lines 147-166). -/
structure SafetyData where
  coPPM : ℚ
  gplPPM : ℚ
  smokePPM : ℚ
  coTimestamp : ℕ
  gplTimestamp : ℕ
  smokeTimestamp : ℕ
  coValid : Bool
  gplValid : Bool
  smokeValid : Bool
  mq7Preheated : Bool
  mq2Preheated : Bool

/-- Tilt readings (`struct LevelData`, SystemData.h lines 172-194). -/
structure LevelData where
  roll : ℚ
  pitch : ℚ
  yaw : ℚ
  rawRoll : ℚ
  rawPitch : ℚ
  totalTilt : ℚ
  temperature : ℚ
  timestamp : ℕ
  valid : Bool
  calibrated : Bool

/-- Sensor availability flags (`struct SensorStatus`, SystemData.h lines 236-248). -/
structure SensorStatus where
  bme280 : Bool
  ds18b20 : Bool
  mpu6050 : Bool
  mq7 : Bool
  mq2 : Bool
  ina226_12v : Bool
  ina226_5v : Bool
  lcd : Bool
  encoder : Bool
  leds : Bool
  buzzer : Bool

/-- Global system state (`struct SystemState`, SystemData.h lines 254-281).
The two `Screen` fields only feed the display layer and are omitted. -/
structure SystemState where
  mode : SystemMode
  environment : EnvironmentData
  power : PowerData
  safety : SafetyData
  level : LevelData
  alerts : AlertState
  sensors : SensorStatus
  preheatStartTime : ℕ
  lastEncoderActivity : ℕ
  uptime : ℕ
  initialized : Bool
  backlightOn : Bool
  calibrationMode : Bool

/-- `isValidPPM` (SystemData.h lines 396-398); `isnan` is impossible on `ℚ`. -/
def isValidPPM (ppm : ℚ) : Bool :=
  decide (0 ≤ ppm) && decide (ppm < 10000)

-- ============================================
-- Threshold configuration (config.h)
-- ============================================

def CO_THRESHOLD_INFO : ℚ := 50
def CO_THRESHOLD_WARNING : ℚ := 200
def CO_THRESHOLD_DANGER : ℚ := 400
def GPL_THRESHOLD_INFO : ℚ := 500
def GPL_THRESHOLD_WARNING : ℚ := 1000
def GPL_THRESHOLD_DANGER : ℚ := 3000
def SMOKE_THRESHOLD_INFO : ℚ := 1000
def SMOKE_THRESHOLD_WARNING : ℚ := 1500
def SMOKE_THRESHOLD_DANGER : ℚ := 2000
def VOLTAGE_12V_MIN : ℚ := 10.5
def VOLTAGE_12V_WARNING : ℚ := 11.5
def VOLTAGE_12V_MAX : ℚ := 14.5
def VOLTAGE_5V_MIN : ℚ := 4.5
def VOLTAGE_5V_MAX : ℚ := 5.5
def CURRENT_12V_MAX : ℚ := 20
def CURRENT_5V_MAX : ℚ := 3
def TEMP_WARNING : ℚ := 35
def HUMIDITY_WARNING : ℚ := 80
def TILT_WARNING : ℚ := 5
def PREHEAT_MQ7_TIME : ℕ := 180000
def PREHEAT_MQ2_TIME : ℕ := 60000

-- ============================================
-- AlertSystem (AlertSystem.h)
-- ============================================

/-- Private fields of `class AlertSystem` (AlertSystem.h lines 44-60).  The
`Buzzer* buzzer` pointer is modelled by the flag `buzzerPtr` (non-null or not);
the buzzer hardware itself is a leaf actuation. -/
structure AlertSys where
  buzzerPtr : Bool
  lastBuzzerToggle : ℕ
  lastAlertCheck : ℕ
  buzzerInterval : ℕ
  buzzerState : Bool
  initialized : Bool

/-- `AlertSystem::addAlert` (AlertSystem.h lines 325-345).  `millis()` is the
`now` argument.  When the buffer already holds 10 records the call returns
without storing the record and, in particular, without touching
`currentLevel`/`primaryAlert`. -/
def addAlert (st : SystemState) (type : AlertType) (level : AlertLevel)
    (value threshold : ℚ) (message : String) (now : ℕ) : SystemState :=
  if h : 10 ≤ st.alerts.activeAlertCount then st
  else
    let index : Fin 10 := ⟨st.alerts.activeAlertCount, by omega⟩
    let rec0 : Alert :=
      { type := type, level := level, value := value, threshold := threshold,
        timestamp := now, active := true, message := message }
    let a := st.alerts
    let a := { a with
      alerts := Function.update a.alerts index rec0,
      activeAlertCount := a.activeAlertCount + 1 }
    let a :=
      if a.currentLevel < level then
        { a with currentLevel := level, primaryAlert := type }
      else a
    { st with alerts := a }

/-- `AlertSystem::checkGasAlerts` (AlertSystem.h lines 163-220). -/
def checkGasAlerts (st : SystemState) (now : ℕ) : SystemState :=
  let st :=
    if st.safety.coValid ∧ CO_THRESHOLD_DANGER < st.safety.coPPM then
      addAlert st AlertType.CO_HIGH AlertLevel.critical
        st.safety.coPPM CO_THRESHOLD_DANGER "CO CRITIQUE!" now
    else if st.safety.coValid ∧ CO_THRESHOLD_WARNING < st.safety.coPPM then
      addAlert st AlertType.CO_HIGH AlertLevel.warning
        st.safety.coPPM CO_THRESHOLD_WARNING "CO eleve" now
    else if st.safety.coValid ∧ CO_THRESHOLD_INFO < st.safety.coPPM then
      addAlert st AlertType.CO_HIGH AlertLevel.info
        st.safety.coPPM CO_THRESHOLD_INFO "CO detecte" now
    else st
  let st :=
    if st.safety.gplValid ∧ GPL_THRESHOLD_DANGER < st.safety.gplPPM then
      addAlert st AlertType.GPL_HIGH AlertLevel.critical
        st.safety.gplPPM GPL_THRESHOLD_DANGER "GPL CRITIQUE!" now
    else if st.safety.gplValid ∧ GPL_THRESHOLD_WARNING < st.safety.gplPPM then
      addAlert st AlertType.GPL_HIGH AlertLevel.warning
        st.safety.gplPPM GPL_THRESHOLD_WARNING "GPL eleve" now
    else if st.safety.gplValid ∧ GPL_THRESHOLD_INFO < st.safety.gplPPM then
      addAlert st AlertType.GPL_HIGH AlertLevel.info
        st.safety.gplPPM GPL_THRESHOLD_INFO "GPL detecte" now
    else st
  let st :=
    if st.safety.smokeValid ∧ SMOKE_THRESHOLD_DANGER < st.safety.smokePPM then
      addAlert st AlertType.SMOKE_HIGH AlertLevel.danger
        st.safety.smokePPM SMOKE_THRESHOLD_DANGER "FUMEE DANGER!" now
    else if st.safety.smokeValid ∧ SMOKE_THRESHOLD_WARNING < st.safety.smokePPM then
      addAlert st AlertType.SMOKE_HIGH AlertLevel.warning
        st.safety.smokePPM SMOKE_THRESHOLD_WARNING "Fumee detectee" now
    else if st.safety.smokeValid ∧ SMOKE_THRESHOLD_INFO < st.safety.smokePPM then
      addAlert st AlertType.SMOKE_HIGH AlertLevel.info
        st.safety.smokePPM SMOKE_THRESHOLD_INFO "Fumee legere" now
    else st
  st

/-- `AlertSystem::checkPowerAlerts` (AlertSystem.h lines 225-273). -/
def checkPowerAlerts (st : SystemState) (now : ℕ) : SystemState :=
  let st :=
    if st.power.voltage12VValid ∧ st.power.voltage12V < VOLTAGE_12V_MIN then
      addAlert st AlertType.VOLTAGE_12V_LOW AlertLevel.danger
        st.power.voltage12V VOLTAGE_12V_MIN "BATTERIE CRITIQUE!" now
    else if st.power.voltage12VValid ∧ st.power.voltage12V < VOLTAGE_12V_WARNING then
      addAlert st AlertType.VOLTAGE_12V_LOW AlertLevel.warning
        st.power.voltage12V VOLTAGE_12V_WARNING "Batterie faible" now
    else st
  let st :=
    if st.power.voltage12VValid ∧ VOLTAGE_12V_MAX < st.power.voltage12V then
      addAlert st AlertType.VOLTAGE_12V_HIGH AlertLevel.warning
        st.power.voltage12V VOLTAGE_12V_MAX "Surtension 12V" now
    else st
  let st :=
    if st.power.voltage5VValid ∧ st.power.voltage5V < VOLTAGE_5V_MIN then
      addAlert st AlertType.VOLTAGE_5V_LOW AlertLevel.danger
        st.power.voltage5V VOLTAGE_5V_MIN "5V CRITIQUE!" now
    else st
  let st :=
    if st.power.voltage5VValid ∧ VOLTAGE_5V_MAX < st.power.voltage5V then
      addAlert st AlertType.VOLTAGE_5V_HIGH AlertLevel.warning
        st.power.voltage5V VOLTAGE_5V_MAX "Surtension 5V" now
    else st
  let st :=
    if st.power.voltage12VValid ∧ CURRENT_12V_MAX < st.power.current12V then
      addAlert st AlertType.CURRENT_12V_HIGH AlertLevel.warning
        st.power.current12V CURRENT_12V_MAX "Surintensity 12V" now
    else st
  let st :=
    if st.power.voltage5VValid ∧ CURRENT_5V_MAX < st.power.current5V then
      addAlert st AlertType.CURRENT_5V_HIGH AlertLevel.warning
        st.power.current5V CURRENT_5V_MAX "Surintensity 5V" now
    else st
  st

/-- `AlertSystem::checkEnvironmentAlerts` (AlertSystem.h lines 278-299). -/
def checkEnvironmentAlerts (st : SystemState) (now : ℕ) : SystemState :=
  let st :=
    if st.environment.tempIntValid ∧ TEMP_WARNING < st.environment.tempInterior then
      addAlert st AlertType.TEMP_HIGH AlertLevel.warning
        st.environment.tempInterior TEMP_WARNING "Temp elevee" now
    else st
  let st :=
    if st.environment.tempIntValid ∧ st.environment.tempInterior < 0 then
      addAlert st AlertType.TEMP_LOW AlertLevel.warning
        st.environment.tempInterior 0 "Temp basse" now
    else st
  let st :=
    if st.environment.humidityValid ∧ HUMIDITY_WARNING < st.environment.humidity then
      addAlert st AlertType.HUMIDITY_HIGH AlertLevel.info
        st.environment.humidity HUMIDITY_WARNING "Humidite haute" now
    else st
  st

/-- `AlertSystem::checkLevelAlerts` (AlertSystem.h lines 304-311). -/
def checkLevelAlerts (st : SystemState) (now : ℕ) : SystemState :=
  if st.level.valid ∧ TILT_WARNING < st.level.totalTilt then
    addAlert st AlertType.TILT_HIGH AlertLevel.warning
      st.level.totalTilt TILT_WARNING "Inclinaison" now
  else st

/-- `AlertSystem::updateAlertMode` (AlertSystem.h lines 350-394). -/
def updateAlertMode (a : AlertSys) (st : SystemState) : AlertSys × SystemState :=
  match st.alerts.currentLevel with
  | .critical =>
      ({ a with buzzerInterval := 0 },
       { st with mode := SystemMode.MODE_ALERT,
                 alerts := { st.alerts with buzzerActive := true, blockNavigation := true } })
  | .danger =>
      ({ a with buzzerInterval := 200 },
       { st with mode := SystemMode.MODE_ALERT,
                 alerts := { st.alerts with buzzerActive := true, blockNavigation := true } })
  | .warning =>
      ({ a with buzzerInterval := 1000 },
       { st with alerts := { st.alerts with buzzerActive := true, blockNavigation := false } })
  | .info =>
      (a,
       { st with
           mode := if st.mode = SystemMode.MODE_ALERT then SystemMode.MODE_NORMAL else st.mode,
           alerts := { st.alerts with buzzerActive := false, blockNavigation := false } })
  | .none =>
      (a,
       { st with
           mode := if st.mode = SystemMode.MODE_ALERT then SystemMode.MODE_NORMAL else st.mode,
           alerts := { st.alerts with buzzerActive := false, blockNavigation := false } })

/-- The reset prologue of `AlertSystem::checkAlerts` (AlertSystem.h lines
136-144): zero the counter, drop the level/primary, deactivate all 10 slots. -/
def resetAlertCycle (st : SystemState) : SystemState :=
  { st with alerts := { st.alerts with
      activeAlertCount := 0,
      currentLevel := AlertLevel.none,
      primaryAlert := AlertType.NONE,
      alerts := fun i => { st.alerts.alerts i with active := false } } }

/-- `AlertSystem::checkAlerts` (AlertSystem.h lines 133-158). -/
def checkAlerts (a : AlertSys) (st : SystemState) (now : ℕ) : AlertSys × SystemState :=
  if a.initialized = false then (a, st)
  else
    let st := resetAlertCycle st
    let st :=
      if st.safety.mq7Preheated ∧ st.safety.mq2Preheated then checkGasAlerts st now else st
    let st := checkPowerAlerts st now
    let st := checkEnvironmentAlerts st now
    let st := checkLevelAlerts st now
    updateAlertMode a st

/-- `AlertSystem::updateBuzzer` (AlertSystem.h lines 410-445).  The two branches
of the toggle both set `lastBuzzerToggle = now` and flip `buzzerState`; the
`tone`/`stop` hardware calls are leaf actuations. -/
def updateBuzzer (a : AlertSys) (st : SystemState) (now : ℕ) : AlertSys :=
  if st.sensors.buzzer = false ∨ a.buzzerPtr = false then a
  else if st.alerts.buzzerActive = false then
    if a.buzzerState then { a with buzzerState := false } else a
  else if a.buzzerInterval = 0 then
    if a.buzzerState = false then { a with buzzerState := true } else a
  else if a.buzzerInterval ≤ now - a.lastBuzzerToggle then
    { a with lastBuzzerToggle := now, buzzerState := !a.buzzerState }
  else a

/-- `AlertSystem::silenceBuzzer` (AlertSystem.h lines 450-455).  The method has
full access to the system state and modifies none of it; the embedding returns
the state unchanged to make that frame explicit. -/
def silenceBuzzer (a : AlertSys) (st : SystemState) : AlertSys × SystemState :=
  (if a.buzzerPtr then { a with buzzerState := false } else a, st)

/-- `AlertSystem::getAlert` (AlertSystem.h lines 506-513).  Out of range, the
source returns a stack-local `Alert empty` whose only initialised field is
`active = false`; the other fields below are arbitrary placeholders. -/
def getAlert (st : SystemState) (index : ℕ) : Alert :=
  if h : index < 10 then st.alerts.alerts ⟨index, h⟩
  else
    { type := AlertType.NONE, level := AlertLevel.none, value := 0, threshold := 0,
      timestamp := 0, active := false, message := "" }

-- ============================================
-- MQ7 CO sensor (test_codes/test_mq7/MQ7Sensor.h)
-- ============================================

def MQ7_PREHEAT_TIME : ℕ := 180000
def MQ7_HIGH_PHASE_TIME : ℕ := 60000
def MQ7_LOW_PHASE_TIME : ℕ := 90000

/-- `enum class MQ7Status` (MQ7Sensor.h lines 84-91). -/
inductive MQ7Status where
  | NOT_INITIALIZED
  | PREHEATING
  | HEATING_HIGH
  | HEATING_LOW
  | READY
  | ERROR_READ
deriving DecidableEq, Repr

/-- `struct MQ7Data` (MQ7Sensor.h lines 70-78).  The source field `ratio`
(Rs/R0) is named `rsOverR0` here. -/
structure MQ7Data where
  rawValue : ℕ
  voltage : ℚ
  rs : ℚ
  rsOverR0 : ℚ
  ppm : ℚ
  valid : Bool
  timestamp : ℕ

/-- Private fields of `class MQ7Sensor` (MQ7Sensor.h lines 148-161). -/
structure MQ7State where
  status : MQ7Status
  currentData : MQ7Data
  initTime : ℕ
  phaseStartTime : ℕ
  isLowPhase : Bool
  r0 : ℚ
  rl : ℚ
  sampleInterval : ℕ
  lastSample : ℕ

/-- `MQ7Sensor::begin` (MQ7Sensor.h lines 195-204); `pinMode` is a leaf call. -/
def mq7Begin (s : MQ7State) (now : ℕ) : MQ7State :=
  { s with initTime := now, phaseStartTime := now,
           status := MQ7Status.PREHEATING, isLowPhase := false }

/-- `MQ7Sensor::updateHeatingPhase` (MQ7Sensor.h lines 476-517).  Note that the
final `if` of the source (line 514) always fires after the high/low branch, so
the stored status collapses to `READY`; the phase itself is carried by
`isLowPhase`. -/
def updateHeatingPhase (s : MQ7State) (now : ℕ) : MQ7State :=
  if s.status = MQ7Status.PREHEATING then
    if MQ7_PREHEAT_TIME ≤ now - s.initTime then
      { s with status := MQ7Status.HEATING_HIGH, phaseStartTime := now, isLowPhase := false }
    else s
  else
    let phaseElapsed := now - s.phaseStartTime
    let s :=
      if s.isLowPhase then
        if MQ7_LOW_PHASE_TIME ≤ phaseElapsed then
          { s with status := MQ7Status.HEATING_HIGH, phaseStartTime := now, isLowPhase := false }
        else { s with status := MQ7Status.HEATING_LOW }
      else
        if MQ7_HIGH_PHASE_TIME ≤ phaseElapsed then
          { s with status := MQ7Status.HEATING_LOW, phaseStartTime := now, isLowPhase := true }
        else { s with status := MQ7Status.HEATING_HIGH }
    if s.status = MQ7Status.HEATING_LOW ∨ s.status = MQ7Status.HEATING_HIGH then
      { s with status := MQ7Status.READY }
    else s

/-- `MQ7Sensor::readSensor` (MQ7Sensor.h lines 523-558).  `analogRead` is the
`raw` argument, `millis()` the `now` argument, and `powCurve` abstracts the
transducer curve `fun x => x ^ (-149/100 : ℚ)` applied to `ratio / 4`
(leaf transducer math, floating point in the source). -/
def mq7ReadSensor (powCurve : ℚ → ℚ) (s : MQ7State) (raw : ℕ) (now : ℕ) :
    MQ7State × Bool :=
  let d := { s.currentData with rawValue := raw, voltage := (raw : ℚ) / 1023 * 5 }
  if d.voltage < 0.1 then
    ({ s with currentData := { d with valid := false } }, false)
  else
    let d := { d with rs := (5 - d.voltage) / d.voltage * s.rl }
    let d := { d with rsOverR0 := d.rs / s.r0 }
    let d := { d with ppm := if 0 < d.rsOverR0 then powCurve (d.rsOverR0 / 4) else 0 }
    let d := { d with ppm := if d.ppm < 20 then 0 else d.ppm }
    let d := { d with ppm := if 2000 < d.ppm then 2000 else d.ppm }
    let d := { d with valid := s.isLowPhase, timestamp := now }
    ({ s with currentData := d }, true)

/-- `MQ7Sensor::update` (MQ7Sensor.h lines 214-227). -/
def mq7Update (powCurve : ℚ → ℚ) (s : MQ7State) (raw : ℕ) (now : ℕ) :
    MQ7State × Bool :=
  let s := updateHeatingPhase s now
  if s.sampleInterval ≤ now - s.lastSample then
    mq7ReadSensor powCurve { s with lastSample := now } raw now
  else (s, false)

/-- `MQ7Sensor::isReadingValid` (MQ7Sensor.h lines 256-258). -/
def mq7IsReadingValid (s : MQ7State) : Bool :=
  s.isLowPhase && s.currentData.valid

-- ============================================
-- MQ2 gas sensor (firmware/van_onboard_computer/MQ2Sensor.h)
-- ============================================

def MQ2_PREHEAT_TIME : ℕ := 180000

/-- `enum class MQ2Status` (MQ2Sensor.h lines 84-89). -/
inductive MQ2Status where
  | NOT_INITIALIZED
  | PREHEATING
  | READY
  | ERROR_READ
deriving DecidableEq, Repr

/-- `struct MQ2Data` (MQ2Sensor.h lines 69-78); the source field `ratio` is
named `rsOverR0`.  Note the struct has no validity flag. -/
structure MQ2Data where
  rawValue : ℕ
  voltage : ℚ
  rs : ℚ
  rsOverR0 : ℚ
  lpg : ℚ
  methane : ℚ
  smoke : ℚ
  timestamp : ℕ

/-- Private fields of `class MQ2Sensor` (MQ2Sensor.h lines 152-162). -/
structure MQ2State where
  status : MQ2Status
  currentData : MQ2Data
  initTime : ℕ
  lastSample : ℕ
  sampleInterval : ℕ
  r0 : ℚ
  rl : ℚ

/-- `MQ2Sensor::readSensor` (MQ2Sensor.h lines 533-588).  The three datasheet
curves `pow(ratio/2.5, -2.08)`, `pow(ratio/3.3, -2.63)`, `pow(ratio/2.0, -2.22)`
are abstracted as the arguments `lpgCurve`, `ch4Curve`, `smokeCurve` (leaf
transducer math).  On a failed read (`voltage < 0.1`) the function returns
`false` having updated only `rawValue` and `voltage`. -/
def mq2ReadSensor (lpgCurve ch4Curve smokeCurve : ℚ → ℚ) (s : MQ2State)
    (raw : ℕ) (now : ℕ) : MQ2State × Bool :=
  let d := { s.currentData with rawValue := raw, voltage := (raw : ℚ) / 1023 * 5 }
  if d.voltage < 0.1 then
    ({ s with currentData := d }, false)
  else
    let d := { d with rs := (5 - d.voltage) / d.voltage * s.rl }
    let d := { d with rsOverR0 := d.rs / s.r0 }
    let d := { d with lpg := if 0.1 < d.rsOverR0 then lpgCurve (d.rsOverR0 / 2.5) else 0 }
    let d := { d with methane := if 0.15 < d.rsOverR0 then ch4Curve (d.rsOverR0 / 3.3) else 0 }
    let d := { d with smoke := if 0.1 < d.rsOverR0 then smokeCurve (d.rsOverR0 / 2) else 0 }
    let d := { d with lpg := if d.lpg < 200 then 0 else d.lpg }
    let d := { d with lpg := if 10000 < d.lpg then 10000 else d.lpg }
    let d := { d with methane := if d.methane < 200 then 0 else d.methane }
    let d := { d with methane := if 10000 < d.methane then 10000 else d.methane }
    let d := { d with smoke := if d.smoke < 100 then 0 else d.smoke }
    let d := { d with smoke := if 10000 < d.smoke then 10000 else d.smoke }
    let d := { d with timestamp := now }
    ({ s with currentData := d }, true)

/-- `MQ2Sensor::update` (MQ2Sensor.h lines 211-228). -/
def mq2Update (lpgCurve ch4Curve smokeCurve : ℚ → ℚ) (s : MQ2State)
    (raw : ℕ) (now : ℕ) : MQ2State × Bool :=
  let s :=
    if s.status = MQ2Status.PREHEATING ∧ MQ2_PREHEAT_TIME ≤ now - s.initTime then
      { s with status := MQ2Status.READY }
    else s
  if s.sampleInterval ≤ now - s.lastSample then
    mq2ReadSensor lpgCurve ch4Curve smokeCurve { s with lastSample := now } raw now
  else (s, false)

-- ============================================
-- SensorManager (SensorManager.h)
-- ============================================

/-- Preheat bookkeeping of `class SensorManager` (SensorManager.h lines 58-60). -/
structure SensorMgr where
  preheatStartTime : ℕ
  preheatComplete : Bool

/-- `SensorManager::updatePreheat` (SensorManager.h lines 251-275). -/
def updatePreheat (m : SensorMgr) (st : SystemState) (now : ℕ) :
    SensorMgr × SystemState :=
  if m.preheatComplete then (m, st)
  else
    let elapsed := now - m.preheatStartTime
    let st :=
      if st.safety.mq2Preheated = false ∧ PREHEAT_MQ2_TIME ≤ elapsed then
        { st with safety := { st.safety with mq2Preheated := true } }
      else st
    let st :=
      if st.safety.mq7Preheated = false ∧ PREHEAT_MQ7_TIME ≤ elapsed then
        { st with safety := { st.safety with mq7Preheated := true } }
      else st
    if st.safety.mq7Preheated ∧ st.safety.mq2Preheated then
      ({ m with preheatComplete := true }, { st with mode := SystemMode.MODE_NORMAL })
    else (m, st)

/-- `SensorManager::updateMQ7` (SensorManager.h lines 334-342).  The null check
on the `mq7` pointer is folded into the `sensors.mq7` flag.  Note the source
sets `coValid` from `mq7Preheated` and `isValidPPM` alone: the sensor-side
validity (`currentData.valid` / `isReadingValid`) is not consulted. -/
def updateMQ7 (powCurve : ℚ → ℚ) (st : SystemState) (s : MQ7State)
    (raw : ℕ) (now : ℕ) : SystemState × MQ7State :=
  if st.sensors.mq7 = false then (st, s)
  else
    let r := mq7Update powCurve s raw now
    if r.2 then
      ({ st with safety := { st.safety with
            coPPM := r.1.currentData.ppm,
            coTimestamp := now,
            coValid := st.safety.mq7Preheated && isValidPPM r.1.currentData.ppm } },
       r.1)
    else (st, r.1)

/-- `SensorManager::updateMQ2` (SensorManager.h lines 347-358). -/
def updateMQ2 (lpgCurve ch4Curve smokeCurve : ℚ → ℚ) (st : SystemState)
    (s : MQ2State) (raw : ℕ) (now : ℕ) : SystemState × MQ2State :=
  if st.sensors.mq2 = false then (st, s)
  else
    let r := mq2Update lpgCurve ch4Curve smokeCurve s raw now
    if r.2 then
      ({ st with safety := { st.safety with
            gplPPM := r.1.currentData.lpg,
            smokePPM := r.1.currentData.smoke,
            gplTimestamp := now,
            smokeTimestamp := now,
            gplValid := st.safety.mq2Preheated && isValidPPM r.1.currentData.lpg,
            smokeValid := st.safety.mq2Preheated && isValidPPM r.1.currentData.smoke } },
       r.1)
    else (st, r.1)

-- ============================================
-- Specification-side view of one evaluation cycle
-- ============================================

/-!
The following definitions restate, in the words of the specification, what one
`checkAlerts` cycle emits: the ordered list of alert records that the threshold
checks fire.  They mirror the conditions of `checkGasAlerts`,
`checkPowerAlerts`, `checkEnvironmentAlerts` and `checkLevelAlerts` read off
the *input* state (which is sound because `addAlert` never modifies the sensor
fields those conditions read; the lemma `checkAlerts_eq_fold` proves the two
views equal).  They exist to compare the code with the arbitration contract of
the spec.
-/

/-- An alert record as described by the spec: what one `addAlert` call carries. -/
structure TrigRec where
  type : AlertType
  level : AlertLevel
  value : ℚ
  threshold : ℚ
  message : String

/-- A conditional singleton record list. -/
def optRec (c : Prop) [Decidable c] (r : TrigRec) : List TrigRec :=
  if c then [r] else []

/-- `addAlert` taking a `TrigRec`. -/
def addAlertRec (now : ℕ) (st : SystemState) (r : TrigRec) : SystemState :=
  addAlert st r.type r.level r.value r.threshold r.message now

/-- The action of `addAlert` on the `AlertState` component alone. -/
def addAlertA (now : ℕ) (a : AlertState) (r : TrigRec) : AlertState :=
  if h : 10 ≤ a.activeAlertCount then a
  else
    let a := { a with
      alerts := Function.update a.alerts ⟨a.activeAlertCount, by omega⟩
        { type := r.type, level := r.level, value := r.value, threshold := r.threshold,
          timestamp := now, active := true, message := r.message },
      activeAlertCount := a.activeAlertCount + 1 }
    if a.currentLevel < r.level then
      { a with currentLevel := r.level, primaryAlert := r.type }
    else a

/-- The stored form of an emitted record (all seven fields `addAlert` writes). -/
def storedAlert (now : ℕ) (r : TrigRec) : Alert :=
  { type := r.type, level := r.level, value := r.value, threshold := r.threshold,
    timestamp := now, active := true, message := r.message }

/-- Records the CO threshold ladder of `checkGasAlerts` emits. -/
def coRecords (st : SystemState) : List TrigRec :=
  if st.safety.coValid ∧ CO_THRESHOLD_DANGER < st.safety.coPPM then
    [⟨AlertType.CO_HIGH, AlertLevel.critical, st.safety.coPPM, CO_THRESHOLD_DANGER, "CO CRITIQUE!"⟩]
  else if st.safety.coValid ∧ CO_THRESHOLD_WARNING < st.safety.coPPM then
    [⟨AlertType.CO_HIGH, AlertLevel.warning, st.safety.coPPM, CO_THRESHOLD_WARNING, "CO eleve"⟩]
  else if st.safety.coValid ∧ CO_THRESHOLD_INFO < st.safety.coPPM then
    [⟨AlertType.CO_HIGH, AlertLevel.info, st.safety.coPPM, CO_THRESHOLD_INFO, "CO detecte"⟩]
  else []

/-- Records the GPL threshold ladder of `checkGasAlerts` emits. -/
def gplRecords (st : SystemState) : List TrigRec :=
  if st.safety.gplValid ∧ GPL_THRESHOLD_DANGER < st.safety.gplPPM then
    [⟨AlertType.GPL_HIGH, AlertLevel.critical, st.safety.gplPPM, GPL_THRESHOLD_DANGER, "GPL CRITIQUE!"⟩]
  else if st.safety.gplValid ∧ GPL_THRESHOLD_WARNING < st.safety.gplPPM then
    [⟨AlertType.GPL_HIGH, AlertLevel.warning, st.safety.gplPPM, GPL_THRESHOLD_WARNING, "GPL eleve"⟩]
  else if st.safety.gplValid ∧ GPL_THRESHOLD_INFO < st.safety.gplPPM then
    [⟨AlertType.GPL_HIGH, AlertLevel.info, st.safety.gplPPM, GPL_THRESHOLD_INFO, "GPL detecte"⟩]
  else []

/-- Records the smoke threshold ladder of `checkGasAlerts` emits. -/
def smokeRecords (st : SystemState) : List TrigRec :=
  if st.safety.smokeValid ∧ SMOKE_THRESHOLD_DANGER < st.safety.smokePPM then
    [⟨AlertType.SMOKE_HIGH, AlertLevel.danger, st.safety.smokePPM, SMOKE_THRESHOLD_DANGER, "FUMEE DANGER!"⟩]
  else if st.safety.smokeValid ∧ SMOKE_THRESHOLD_WARNING < st.safety.smokePPM then
    [⟨AlertType.SMOKE_HIGH, AlertLevel.warning, st.safety.smokePPM, SMOKE_THRESHOLD_WARNING, "Fumee detectee"⟩]
  else if st.safety.smokeValid ∧ SMOKE_THRESHOLD_INFO < st.safety.smokePPM then
    [⟨AlertType.SMOKE_HIGH, AlertLevel.info, st.safety.smokePPM, SMOKE_THRESHOLD_INFO, "Fumee legere"⟩]
  else []

/-- Records `checkGasAlerts` emits, in source order. -/
def gasRecords (st : SystemState) : List TrigRec :=
  coRecords st ++ gplRecords st ++ smokeRecords st

/-- Records of the 12V-low ladder of `checkPowerAlerts`. -/
def volt12LowRecords (st : SystemState) : List TrigRec :=
  if st.power.voltage12VValid ∧ st.power.voltage12V < VOLTAGE_12V_MIN then
    [⟨AlertType.VOLTAGE_12V_LOW, AlertLevel.danger, st.power.voltage12V, VOLTAGE_12V_MIN, "BATTERIE CRITIQUE!"⟩]
  else if st.power.voltage12VValid ∧ st.power.voltage12V < VOLTAGE_12V_WARNING then
    [⟨AlertType.VOLTAGE_12V_LOW, AlertLevel.warning, st.power.voltage12V, VOLTAGE_12V_WARNING, "Batterie faible"⟩]
  else []

/-- Records `checkPowerAlerts` emits, in source order. -/
def powerRecords (st : SystemState) : List TrigRec :=
  volt12LowRecords st
    ++ optRec (st.power.voltage12VValid ∧ VOLTAGE_12V_MAX < st.power.voltage12V)
        ⟨AlertType.VOLTAGE_12V_HIGH, AlertLevel.warning, st.power.voltage12V, VOLTAGE_12V_MAX, "Surtension 12V"⟩
    ++ optRec (st.power.voltage5VValid ∧ st.power.voltage5V < VOLTAGE_5V_MIN)
        ⟨AlertType.VOLTAGE_5V_LOW, AlertLevel.danger, st.power.voltage5V, VOLTAGE_5V_MIN, "5V CRITIQUE!"⟩
    ++ optRec (st.power.voltage5VValid ∧ VOLTAGE_5V_MAX < st.power.voltage5V)
        ⟨AlertType.VOLTAGE_5V_HIGH, AlertLevel.warning, st.power.voltage5V, VOLTAGE_5V_MAX, "Surtension 5V"⟩
    ++ optRec (st.power.voltage12VValid ∧ CURRENT_12V_MAX < st.power.current12V)
        ⟨AlertType.CURRENT_12V_HIGH, AlertLevel.warning, st.power.current12V, CURRENT_12V_MAX, "Surintensity 12V"⟩
    ++ optRec (st.power.voltage5VValid ∧ CURRENT_5V_MAX < st.power.current5V)
        ⟨AlertType.CURRENT_5V_HIGH, AlertLevel.warning, st.power.current5V, CURRENT_5V_MAX, "Surintensity 5V"⟩

/-- Records `checkEnvironmentAlerts` emits, in source order. -/
def envRecords (st : SystemState) : List TrigRec :=
  optRec (st.environment.tempIntValid ∧ TEMP_WARNING < st.environment.tempInterior)
      ⟨AlertType.TEMP_HIGH, AlertLevel.warning, st.environment.tempInterior, TEMP_WARNING, "Temp elevee"⟩
    ++ optRec (st.environment.tempIntValid ∧ st.environment.tempInterior < 0)
      ⟨AlertType.TEMP_LOW, AlertLevel.warning, st.environment.tempInterior, 0, "Temp basse"⟩
    ++ optRec (st.environment.humidityValid ∧ HUMIDITY_WARNING < st.environment.humidity)
      ⟨AlertType.HUMIDITY_HIGH, AlertLevel.info, st.environment.humidity, HUMIDITY_WARNING, "Humidite haute"⟩

/-- Records `checkLevelAlerts` emits. -/
def levelRecords (st : SystemState) : List TrigRec :=
  optRec (st.level.valid ∧ TILT_WARNING < st.level.totalTilt)
    ⟨AlertType.TILT_HIGH, AlertLevel.warning, st.level.totalTilt, TILT_WARNING, "Inclinaison"⟩

/-- All records one `checkAlerts` cycle emits, in insertion order. -/
def cycleRecords (st : SystemState) : List TrigRec :=
  (if st.safety.mq7Preheated ∧ st.safety.mq2Preheated then gasRecords st else [])
    ++ powerRecords st ++ envRecords st ++ levelRecords st

/-- Maximum severity of a record list, starting from `m` (spec: `max(severity
of all AlertRecords in that cycle)`, with `max ∅ = NONE`). -/
def maxSeverity (m : AlertLevel) (l : List TrigRec) : AlertLevel :=
  l.foldl (fun acc r => max acc r.level) m

/-- One step of the running (level, primary) pair that `addAlert` maintains. -/
def arbStep (p : AlertLevel × AlertType) (r : TrigRec) : AlertLevel × AlertType :=
  if p.1 < r.level then (r.level, r.type) else p

/-- The spec arbitration contract for the primary alert: the type of the
earliest-inserted record having the maximum severity (`NONE` when empty). -/
def primaryOf (l : List TrigRec) : AlertType :=
  ((l.find? fun r => decide (r.level = maxSeverity AlertLevel.none l)).map
      TrigRec.type).getD AlertType.NONE

-- ============================================
-- Specification-side view of the MQ7 heating cycle
-- ============================================

/-- The heating-cycle phase in the words of the spec (HeatingCycleState). -/
inductive MQ7Phase where
  | preheating
  | highPhase
  | lowPhase
deriving DecidableEq, Repr

/-- The phase a sensor state is in: `PREHEATING` status is the preheat phase;
afterwards `isLowPhase` carries the high/low alternation (the stored status
collapses to `READY`, see `updateHeatingPhase`). -/
def phaseOf (s : MQ7State) : MQ7Phase :=
  if s.status = MQ7Status.PREHEATING then MQ7Phase.preheating
  else if s.isLowPhase then MQ7Phase.lowPhase
  else MQ7Phase.highPhase

/-- The cyclic successor: Preheating, then HighPhase, then LowPhase, then
HighPhase, and so on. -/
def nextPhase : MQ7Phase → MQ7Phase
  | MQ7Phase.preheating => MQ7Phase.highPhase
  | MQ7Phase.highPhase => MQ7Phase.lowPhase
  | MQ7Phase.lowPhase => MQ7Phase.highPhase

/-- Configured duration of each phase. -/
def phaseDuration : MQ7Phase → ℕ
  | MQ7Phase.preheating => MQ7_PREHEAT_TIME
  | MQ7Phase.highPhase => MQ7_HIGH_PHASE_TIME
  | MQ7Phase.lowPhase => MQ7_LOW_PHASE_TIME

/-- States reachable from `mq7Begin`: while preheating, the low-phase flag is
clear and the phase-start timestamp is the init timestamp (the source compares
against `initTime` during preheat). -/
def mq7WF (s : MQ7State) : Prop :=
  s.status = MQ7Status.PREHEATING →
    s.isLowPhase = false ∧ s.phaseStartTime = s.initTime

-- ============================================
-- Concrete fixtures for witnesses and counterexamples
-- ============================================

/-- An inactive alert slot (the initial buffer content, `initSystemState`,
SystemData.h lines 465-470). -/
def emptySlot : Alert :=
  { type := AlertType.NONE, level := AlertLevel.none, value := 0, threshold := 0,
    timestamp := 0, active := false, message := "" }

/-- The alert state `initSystemState` produces (SystemData.h lines 457-470). -/
def initAlertState : AlertState :=
  { currentLevel := AlertLevel.none, primaryAlert := AlertType.NONE,
    activeAlertCount := 0, alerts := fun _ => emptySlot,
    buzzerActive := false, blockNavigation := false, lastBuzzerToggle := 0 }

/-- An `AlertSystem` after a successful `begin()`. -/
def alertSysReady : AlertSys :=
  { buzzerPtr := true, lastBuzzerToggle := 0, lastAlertCheck := 0,
    buzzerInterval := 1000, buzzerState := false, initialized := true }

/-- A quiet system state: both gas sensors preheated, every reading invalid,
except that the CO reading is valid with the given ppm. -/
def coOnlyState (ppm : ℚ) : SystemState :=
  { mode := SystemMode.MODE_NORMAL,
    environment :=
      { tempInterior := 0, tempExterior := 0, humidity := 0, pressure := 0,
        dewPoint := 0, tempIntTimestamp := 0, tempExtTimestamp := 0,
        tempIntValid := false, tempExtValid := false, humidityValid := false,
        pressureValid := false },
    power :=
      { voltage12V := 0, current12V := 0, power12V := 0, voltage5V := 0,
        current5V := 0, power5V := 0, powerTotal := 0,
        voltage12VTimestamp := 0, voltage5VTimestamp := 0,
        voltage12VValid := false, voltage5VValid := false },
    safety :=
      { coPPM := ppm, gplPPM := 0, smokePPM := 0, coTimestamp := 0,
        gplTimestamp := 0, smokeTimestamp := 0, coValid := true,
        gplValid := false, smokeValid := false,
        mq7Preheated := true, mq2Preheated := true },
    level :=
      { roll := 0, pitch := 0, yaw := 0, rawRoll := 0, rawPitch := 0,
        totalTilt := 0, temperature := 0, timestamp := 0, valid := false,
        calibrated := false },
    alerts := initAlertState,
    sensors :=
      { bme280 := false, ds18b20 := false, mpu6050 := false, mq7 := true,
        mq2 := true, ina226_12v := false, ina226_5v := false, lcd := false,
        encoder := false, leds := false, buzzer := true },
    preheatStartTime := 0, lastEncoderActivity := 0, uptime := 0,
    initialized := true, backlightOn := true, calibrationMode := false }

/-- The quiet host state with no valid gas reading at all (the CO fields are
overwritten by `updateMQ7`). -/
def gasHostState : SystemState :=
  { coOnlyState 0 with
      safety := { (coOnlyState 0).safety with coValid := false } }

/-- The quiet host state with a stale valid LPG reading. -/
def gplValidState : SystemState :=
  { coOnlyState 0 with
      safety := { (coOnlyState 0).safety with
        coValid := false, gplValid := true, gplPPM := 5000 } }

/-- Transducer curve standing in for `pow(x, -1.49)` on the inputs of the C5
scenario: the curve point that maps the fixture reading to 250 ppm. -/
def co250Curve : ℚ → ℚ := fun _ => 250

/-- A curve constant at zero, for scenarios whose reading fails before any
curve is applied. -/
def zeroCurve : ℚ → ℚ := fun _ => 0

/-- MQ7 sensor mid-cycle, in the high (cleaning) phase, preheat long over:
10 ms into the high phase, sampling due. -/
def mq7HighPhaseState : MQ7State :=
  { status := MQ7Status.READY,
    currentData :=
      { rawValue := 0, voltage := 0, rs := 0, rsOverR0 := 0, ppm := 0,
        valid := false, timestamp := 0 },
    initTime := 0, phaseStartTime := 1000000, isLowPhase := false,
    r0 := 10, rl := 10, sampleInterval := 1000, lastSample := 0 }

/-- The same sensor state but in the low (measuring) phase. -/
def mq7LowPhaseState : MQ7State :=
  { mq7HighPhaseState with isLowPhase := true }

/-- MQ7 sensor freshly begun (preheating from time 0). -/
def mq7FreshState : MQ7State :=
  mq7Begin mq7HighPhaseState 0

/-- MQ2 sensor holding a stale LPG measurement of 5000 ppm, sampling due. -/
def mq2StaleState : MQ2State :=
  { status := MQ2Status.READY,
    currentData :=
      { rawValue := 500, voltage := 2, rs := 15, rsOverR0 := 1, lpg := 5000,
        methane := 0, smoke := 900, timestamp := 0 },
    initTime := 0, lastSample := 0, sampleInterval := 1000, r0 := 10, rl := 10 }

/-- A state still preheating (both flags down) whose tilt reading violates the
threshold: the only record a cycle can emit is the TILT warning. -/
def tiltOnlyState : SystemState :=
  { coOnlyState 0 with
      safety := { (coOnlyState 0).safety with
        coValid := false, mq7Preheated := false, mq2Preheated := false },
      level := { (coOnlyState 0).level with valid := true, totalTilt := 10 } }

/-- A sensor manager still preheating, started at time 0. -/
def mgrFixture : SensorMgr :=
  { preheatStartTime := 0, preheatComplete := false }

/-- The humidity INFO record used by the overflow scenario. -/
def infoRec : TrigRec :=
  ⟨AlertType.HUMIDITY_HIGH, AlertLevel.info, 85, HUMIDITY_WARNING, "Humidite haute"⟩

/-- The CO CRITICAL record used by the overflow scenario. -/
def critRec : TrigRec :=
  ⟨AlertType.CO_HIGH, AlertLevel.critical, 450, CO_THRESHOLD_DANGER, "CO CRITIQUE!"⟩

/-- Twelve simultaneous violations: ten INFO records followed by two CRITICAL
records (the two that the capacity limit drops). -/
def twelveRecs : List TrigRec :=
  List.replicate 10 infoRec ++ [critRec, critRec]

-- ============================================
-- Frame lemmas for addAlert
-- ============================================

theorem addAlert_safety (st : SystemState) (t : AlertType) (l : AlertLevel)
    (v th : ℚ) (m : String) (now : ℕ) : (addAlert st t l v th m now).safety = st.safety := by
  unfold addAlert; split <;> rfl

theorem addAlert_power (st : SystemState) (t : AlertType) (l : AlertLevel)
    (v th : ℚ) (m : String) (now : ℕ) : (addAlert st t l v th m now).power = st.power := by
  unfold addAlert; split <;> rfl

theorem addAlert_environment (st : SystemState) (t : AlertType) (l : AlertLevel)
    (v th : ℚ) (m : String) (now : ℕ) :
    (addAlert st t l v th m now).environment = st.environment := by
  unfold addAlert; split <;> rfl

theorem addAlert_level (st : SystemState) (t : AlertType) (l : AlertLevel)
    (v th : ℚ) (m : String) (now : ℕ) : (addAlert st t l v th m now).level = st.level := by
  unfold addAlert; split <;> rfl

theorem addAlertRec_alerts (now : ℕ) (st : SystemState) (r : TrigRec) :
    (addAlertRec now st r).alerts = addAlertA now st.alerts r := by
  unfold addAlertRec addAlert addAlertA; split <;> rfl

theorem foldl_addAlertRec_alerts (now : ℕ) (l : List TrigRec) :
    ∀ st : SystemState,
      (List.foldl (addAlertRec now) st l).alerts = List.foldl (addAlertA now) st.alerts l := by
  induction l with
  | nil => intro st; rfl
  | cons r rs ih =>
      intro st
      rw [List.foldl_cons, List.foldl_cons, ih, addAlertRec_alerts]

theorem foldl_addAlertRec_safety (now : ℕ) (l : List TrigRec) :
    ∀ st : SystemState, (List.foldl (addAlertRec now) st l).safety = st.safety := by
  induction l with
  | nil => intro st; rfl
  | cons r rs ih =>
      intro st
      rw [List.foldl_cons, ih, addAlertRec, addAlert_safety]

theorem foldl_addAlertRec_power (now : ℕ) (l : List TrigRec) :
    ∀ st : SystemState, (List.foldl (addAlertRec now) st l).power = st.power := by
  induction l with
  | nil => intro st; rfl
  | cons r rs ih =>
      intro st
      rw [List.foldl_cons, ih, addAlertRec, addAlert_power]

theorem foldl_addAlertRec_environment (now : ℕ) (l : List TrigRec) :
    ∀ st : SystemState,
      (List.foldl (addAlertRec now) st l).environment = st.environment := by
  induction l with
  | nil => intro st; rfl
  | cons r rs ih =>
      intro st
      rw [List.foldl_cons, ih, addAlertRec, addAlert_environment]

theorem foldl_addAlertRec_level (now : ℕ) (l : List TrigRec) :
    ∀ st : SystemState, (List.foldl (addAlertRec now) st l).level = st.level := by
  induction l with
  | nil => intro st; rfl
  | cons r rs ih =>
      intro st
      rw [List.foldl_cons, ih, addAlertRec, addAlert_level]

-- ============================================
-- checkAlerts as a fold over the emitted record list
-- ============================================

/-- A three-rung threshold ladder is the fold of `addAlert` over the
corresponding conditional record list. -/
theorem ladder3_eq (c1 c2 c3 : Prop) [Decidable c1] [Decidable c2] [Decidable c3]
    (st : SystemState) (now : ℕ)
    (t1 t2 t3 : AlertType) (l1 l2 l3 : AlertLevel) (v1 v2 v3 w1 w2 w3 : ℚ)
    (m1 m2 m3 : String) :
    (if c1 then addAlert st t1 l1 v1 w1 m1 now
     else if c2 then addAlert st t2 l2 v2 w2 m2 now
     else if c3 then addAlert st t3 l3 v3 w3 m3 now
     else st)
      = List.foldl (addAlertRec now) st
          (if c1 then [⟨t1, l1, v1, w1, m1⟩]
           else if c2 then [⟨t2, l2, v2, w2, m2⟩]
           else if c3 then [⟨t3, l3, v3, w3, m3⟩]
           else []) := by
  split_ifs <;> rfl

/-- A two-rung threshold ladder as a fold. -/
theorem ladder2_eq (c1 c2 : Prop) [Decidable c1] [Decidable c2]
    (st : SystemState) (now : ℕ) (t1 t2 : AlertType) (l1 l2 : AlertLevel)
    (v1 v2 w1 w2 : ℚ) (m1 m2 : String) :
    (if c1 then addAlert st t1 l1 v1 w1 m1 now
     else if c2 then addAlert st t2 l2 v2 w2 m2 now
     else st)
      = List.foldl (addAlertRec now) st
          (if c1 then [⟨t1, l1, v1, w1, m1⟩]
           else if c2 then [⟨t2, l2, v2, w2, m2⟩]
           else []) := by
  split_ifs <;> rfl

/-- A single threshold check as a fold. -/
theorem ladder1_eq (c : Prop) [Decidable c] (st : SystemState) (now : ℕ)
    (t : AlertType) (l : AlertLevel) (v w : ℚ) (m : String) :
    (if c then addAlert st t l v w m now else st)
      = List.foldl (addAlertRec now) st (optRec c ⟨t, l, v, w, m⟩) := by
  unfold optRec; split_ifs <;> rfl

theorem checkGasAlerts_eq (st : SystemState) (now : ℕ) :
    checkGasAlerts st now = List.foldl (addAlertRec now) st (gasRecords st) := by
  simp only [checkGasAlerts]
  rw [ladder3_eq, ladder3_eq, ladder3_eq]
  simp only [foldl_addAlertRec_safety]
  simp only [gasRecords, coRecords, gplRecords, smokeRecords, List.foldl_append]

theorem checkPowerAlerts_eq (st : SystemState) (now : ℕ) :
    checkPowerAlerts st now = List.foldl (addAlertRec now) st (powerRecords st) := by
  simp only [checkPowerAlerts]
  rw [ladder1_eq, ladder1_eq, ladder1_eq, ladder1_eq, ladder1_eq, ladder2_eq]
  simp only [foldl_addAlertRec_power]
  simp only [powerRecords, volt12LowRecords, List.foldl_append]

theorem checkEnvironmentAlerts_eq (st : SystemState) (now : ℕ) :
    checkEnvironmentAlerts st now = List.foldl (addAlertRec now) st (envRecords st) := by
  simp only [checkEnvironmentAlerts]
  rw [ladder1_eq, ladder1_eq, ladder1_eq]
  simp only [foldl_addAlertRec_environment]
  simp only [envRecords, List.foldl_append]

theorem checkLevelAlerts_eq (st : SystemState) (now : ℕ) :
    checkLevelAlerts st now = List.foldl (addAlertRec now) st (levelRecords st) := by
  simp only [checkLevelAlerts]
  rw [ladder1_eq]
  simp only [levelRecords]

theorem powerRecords_congr {st1 st2 : SystemState} (h : st1.power = st2.power) :
    powerRecords st1 = powerRecords st2 := by
  simp only [powerRecords, volt12LowRecords, optRec, h]

theorem envRecords_congr {st1 st2 : SystemState} (h : st1.environment = st2.environment) :
    envRecords st1 = envRecords st2 := by
  simp only [envRecords, optRec, h]

theorem levelRecords_congr {st1 st2 : SystemState} (h : st1.level = st2.level) :
    levelRecords st1 = levelRecords st2 := by
  simp only [levelRecords, optRec, h]

/-- Pushing a fold over a conditionally empty list through the conditional. -/
theorem foldl_ite_nil {α β : Type} (P : Prop) [Decidable P] (f : β → α → β)
    (init : β) (l : List α) :
    List.foldl f init (if P then l else []) = if P then List.foldl f init l else init := by
  split <;> rfl

theorem resetAlertCycle_safety (st : SystemState) :
    (resetAlertCycle st).safety = st.safety := rfl

theorem resetAlertCycle_power (st : SystemState) :
    (resetAlertCycle st).power = st.power := rfl

theorem resetAlertCycle_environment (st : SystemState) :
    (resetAlertCycle st).environment = st.environment := rfl

theorem resetAlertCycle_level (st : SystemState) :
    (resetAlertCycle st).level = st.level := rfl

/-- One `checkAlerts` cycle (when the system is initialised) equals folding
`addAlert` over the emitted record list from a cleared alert state, followed by
`updateAlertMode`. -/
theorem checkAlerts_eq_fold (a : AlertSys) (st : SystemState) (now : ℕ)
    (h : a.initialized = true) :
    checkAlerts a st now =
      updateAlertMode a
        (List.foldl (addAlertRec now) (resetAlertCycle st) (cycleRecords st)) := by
  simp only [checkAlerts]
  rw [if_neg (by simp [h])]
  rw [checkGasAlerts_eq, checkPowerAlerts_eq, checkEnvironmentAlerts_eq, checkLevelAlerts_eq]
  simp only [cycleRecords, List.foldl_append, foldl_ite_nil,
    gasRecords, coRecords, gplRecords, smokeRecords, powerRecords, volt12LowRecords,
    envRecords, levelRecords, optRec,
    apply_ite SystemState.safety, apply_ite SystemState.power,
    apply_ite SystemState.environment, apply_ite SystemState.level,
    foldl_addAlertRec_safety, foldl_addAlertRec_power,
    foldl_addAlertRec_environment, foldl_addAlertRec_level,
    resetAlertCycle_safety, resetAlertCycle_power,
    resetAlertCycle_environment, resetAlertCycle_level, ite_self]

theorem updateAlertMode_currentLevel (a : AlertSys) (st : SystemState) :
    (updateAlertMode a st).2.alerts.currentLevel = st.alerts.currentLevel := by
  unfold updateAlertMode
  rcases hl : st.alerts.currentLevel <;> simp [hl]

theorem updateAlertMode_primaryAlert (a : AlertSys) (st : SystemState) :
    (updateAlertMode a st).2.alerts.primaryAlert = st.alerts.primaryAlert := by
  unfold updateAlertMode
  rcases hl : st.alerts.currentLevel <;> simp [hl]

theorem updateAlertMode_count (a : AlertSys) (st : SystemState) :
    (updateAlertMode a st).2.alerts.activeAlertCount = st.alerts.activeAlertCount := by
  unfold updateAlertMode
  rcases hl : st.alerts.currentLevel <;> simp [hl]

theorem updateAlertMode_slots (a : AlertSys) (st : SystemState) :
    (updateAlertMode a st).2.alerts.alerts = st.alerts.alerts := by
  unfold updateAlertMode
  rcases hl : st.alerts.currentLevel <;> simp [hl]

-- ============================================
-- Arbitration: the running (level, primary) pair
-- ============================================

theorem addAlertA_count (now : ℕ) (a : AlertState) (r : TrigRec)
    (h : ¬ 10 ≤ a.activeAlertCount) :
    (addAlertA now a r).activeAlertCount = a.activeAlertCount + 1 := by
  unfold addAlertA
  rw [dif_neg h]
  dsimp only
  split <;> rfl

theorem addAlertA_pair (now : ℕ) (a : AlertState) (r : TrigRec)
    (h : ¬ 10 ≤ a.activeAlertCount) :
    ((addAlertA now a r).currentLevel, (addAlertA now a r).primaryAlert)
      = arbStep (a.currentLevel, a.primaryAlert) r := by
  unfold addAlertA arbStep
  rw [dif_neg h]
  dsimp only
  split <;> rfl

theorem addAlertA_alerts (now : ℕ) (a : AlertState) (r : TrigRec)
    (h : ¬ 10 ≤ a.activeAlertCount) :
    (addAlertA now a r).alerts
      = Function.update a.alerts ⟨a.activeAlertCount, by omega⟩ (storedAlert now r) := by
  unfold addAlertA storedAlert
  rw [dif_neg h]
  dsimp only
  split <;> rfl

theorem addAlertA_full (now : ℕ) (a : AlertState) (r : TrigRec)
    (h : 10 ≤ a.activeAlertCount) : addAlertA now a r = a := by
  unfold addAlertA
  rw [dif_pos h]

theorem foldl_addAlertA_pair (now : ℕ) (l : List TrigRec) :
    ∀ a : AlertState, a.activeAlertCount + l.length ≤ 10 →
      ((List.foldl (addAlertA now) a l).currentLevel,
       (List.foldl (addAlertA now) a l).primaryAlert)
        = List.foldl arbStep (a.currentLevel, a.primaryAlert) l := by
  induction l with
  | nil => intro a _; rfl
  | cons r rs ih =>
      intro a h
      have hlt : ¬ 10 ≤ a.activeAlertCount := by
        simp only [List.length_cons] at h; omega
      rw [List.foldl_cons, List.foldl_cons,
          ih _ (by rw [addAlertA_count now a r hlt]
                   simp only [List.length_cons] at h; omega),
          addAlertA_pair now a r hlt]

theorem foldl_addAlertA_count (now : ℕ) (l : List TrigRec) :
    ∀ a : AlertState, a.activeAlertCount + l.length ≤ 10 →
      (List.foldl (addAlertA now) a l).activeAlertCount
        = a.activeAlertCount + l.length := by
  induction l with
  | nil => intro a _; rfl
  | cons r rs ih =>
      intro a h
      have hlt : ¬ 10 ≤ a.activeAlertCount := by
        simp only [List.length_cons] at h; omega
      rw [List.foldl_cons,
          ih _ (by rw [addAlertA_count now a r hlt]
                   simp only [List.length_cons] at h; omega),
          addAlertA_count now a r hlt]
      simp only [List.length_cons]
      omega

theorem foldl_addAlertA_stop (now : ℕ) (l : List TrigRec) :
    ∀ a : AlertState, 10 ≤ a.activeAlertCount →
      List.foldl (addAlertA now) a l = a := by
  induction l with
  | nil => intro a _; rfl
  | cons r rs ih =>
      intro a h
      rw [List.foldl_cons, addAlertA_full now a r h, ih a h]

/-- `addAlert` ignores every record past the free capacity: the fold only sees
the prefix that fits. -/
theorem foldl_addAlertA_drop (now : ℕ) (l : List TrigRec) :
    ∀ a : AlertState,
      List.foldl (addAlertA now) a l
        = List.foldl (addAlertA now) a (l.take (10 - a.activeAlertCount)) := by
  induction l with
  | nil => intro a; rw [List.take_nil]
  | cons r rs ih =>
      intro a
      by_cases h : 10 ≤ a.activeAlertCount
      · rw [show 10 - a.activeAlertCount = 0 by omega, List.take_zero,
            List.foldl_nil, foldl_addAlertA_stop now _ a h]
      · have h1 : 10 - a.activeAlertCount = (10 - (a.activeAlertCount + 1)) + 1 := by omega
        rw [h1, List.take_succ_cons, List.foldl_cons, List.foldl_cons, ih,
            addAlertA_count now a r h]

theorem maxSeverity_cons (m : AlertLevel) (r : TrigRec) (rs : List TrigRec) :
    maxSeverity m (r :: rs) = maxSeverity (max m r.level) rs := rfl

theorem self_le_maxSeverity (l : List TrigRec) :
    ∀ m : AlertLevel, m ≤ maxSeverity m l := by
  induction l with
  | nil => intro m; exact le_refl m
  | cons r rs ih =>
      intro m
      exact le_trans (le_max_left m r.level) (ih _)

theorem level_le_maxSeverity (l : List TrigRec) :
    ∀ (m : AlertLevel), ∀ r ∈ l, r.level ≤ maxSeverity m l := by
  induction l with
  | nil => intro m r hr; cases hr
  | cons x xs ih =>
      intro m r hr
      rw [List.mem_cons] at hr
      rcases hr with h | h
      · subst h
        exact le_trans (le_max_right m r.level) (self_le_maxSeverity xs _)
      · exact ih _ r h

theorem maxSeverity_attained (l : List TrigRec) :
    ∀ m : AlertLevel, maxSeverity m l = m ∨ ∃ r ∈ l, r.level = maxSeverity m l := by
  induction l with
  | nil => intro m; exact Or.inl rfl
  | cons x xs ih =>
      intro m
      rw [maxSeverity_cons]
      rcases ih (max m x.level) with h | ⟨r, hr, he⟩
      · rw [h]
        rcases le_total x.level m with h1 | h1
        · exact Or.inl (max_eq_left h1)
        · exact Or.inr ⟨x, List.mem_cons_self x xs, (max_eq_right h1).symm⟩
      · exact Or.inr ⟨r, List.mem_cons_of_mem x hr, he⟩

theorem findq_cons_pos {α : Type} (p : α → Bool) (x : α) (xs : List α)
    (h : p x = true) : List.find? p (x :: xs) = some x := by
  rw [List.find?_cons, h]

theorem findq_cons_neg {α : Type} (p : α → Bool) (x : α) (xs : List α)
    (h : p x = false) : List.find? p (x :: xs) = List.find? p xs := by
  rw [List.find?_cons, h]

theorem findq_congr_mem {α : Type} (p q : α → Bool) :
    ∀ l : List α, (∀ x ∈ l, p x = q x) → l.find? p = l.find? q := by
  intro l
  induction l with
  | nil => intro _; rfl
  | cons x xs ih =>
      intro h
      have hx := h x (List.mem_cons_self x xs)
      rw [List.find?_cons, List.find?_cons, hx,
          ih (fun y hy => h y (List.mem_cons_of_mem x hy))]

/-- The primary-alert accumulator of `addAlert` selects the type of the
earliest record whose severity strictly exceeds the initial level and reaches
the overall maximum. -/
theorem foldl_arbStep_fst (l : List TrigRec) :
    ∀ (m : AlertLevel) (p : AlertType),
      (List.foldl arbStep (m, p) l).1 = maxSeverity m l := by
  induction l with
  | nil => intro m p; rfl
  | cons x xs ih =>
      intro m p
      rw [List.foldl_cons, maxSeverity_cons]
      unfold arbStep
      by_cases hc : m < x.level
      · rw [if_pos hc]
        rw [max_eq_right (le_of_lt hc)]
        exact ih x.level x.type
      · rw [if_neg hc]
        rw [max_eq_left (le_of_not_lt hc)]
        exact ih m p

theorem foldl_arbStep_snd (l : List TrigRec) :
    ∀ (m : AlertLevel) (p : AlertType),
      (List.foldl arbStep (m, p) l).2 =
        (((l.find? fun r => decide (m < r.level ∧ maxSeverity m l ≤ r.level)).map
            TrigRec.type).getD p) := by
  induction l with
  | nil => intro m p; rfl
  | cons x xs ih =>
      intro m p
      rw [List.foldl_cons]
      by_cases hc : m < x.level
      · rw [show arbStep (m, p) x = (x.level, x.type) by unfold arbStep; rw [if_pos hc]]
        have hmax : max m x.level = x.level := max_eq_right (le_of_lt hc)
        have hM : maxSeverity m (x :: xs) = maxSeverity x.level xs := by
          rw [maxSeverity_cons, hmax]
        by_cases hMle : maxSeverity m (x :: xs) ≤ x.level
        · rw [findq_cons_pos (fun r => decide (m < r.level ∧ maxSeverity m (x :: xs) ≤ r.level))
              x xs (by simp only [decide_eq_true_eq]; exact ⟨hc, hMle⟩)]
          have hnone : xs.find?
              (fun r => decide (x.level < r.level ∧ maxSeverity x.level xs ≤ r.level))
              = none := by
            rw [List.find?_eq_none]
            intro r hr
            simp only [decide_eq_true_eq, not_and]
            intro hlt
            exact absurd (le_trans (level_le_maxSeverity xs x.level r hr) (hM ▸ hMle))
              (not_le_of_lt hlt)
          rw [ih x.level x.type, hnone]
          rfl
        · rw [findq_cons_neg (fun r => decide (m < r.level ∧ maxSeverity m (x :: xs) ≤ r.level))
              x xs (by simp only [decide_eq_false_iff_not, not_and]; intro _; exact hMle)]
          have hxM : x.level < maxSeverity x.level xs := by
            rw [← hM]; exact lt_of_not_le hMle
          have hcongr : xs.find?
                (fun r => decide (x.level < r.level ∧ maxSeverity x.level xs ≤ r.level))
              = xs.find?
                (fun r => decide (m < r.level ∧ maxSeverity m (x :: xs) ≤ r.level)) := by
            apply findq_congr_mem
            intro r hr
            rw [decide_eq_decide, hM]
            constructor
            · rintro ⟨h1, h2⟩; exact ⟨lt_trans hc h1, h2⟩
            · rintro ⟨_, h2⟩; exact ⟨lt_of_lt_of_le hxM h2, h2⟩
          have hattain : ∃ r ∈ xs, r.level = maxSeverity x.level xs := by
            rcases maxSeverity_attained xs x.level with h | h
            · exact absurd h.symm (ne_of_lt hxM)
            · exact h
          obtain ⟨r0, hr0, he0⟩ := hattain
          rcases hfind : xs.find?
              (fun r => decide (m < r.level ∧ maxSeverity m (x :: xs) ≤ r.level)) with _ | y
          · exfalso
            have hne := List.find?_eq_none.mp hfind r0 hr0
            apply hne
            simp only [decide_eq_true_eq, hM]
            exact ⟨lt_trans hc (he0 ▸ hxM), le_of_eq he0.symm⟩
          · rw [ih x.level x.type, hcongr, hfind]
            rfl
      · rw [show arbStep (m, p) x = (m, p) by unfold arbStep; rw [if_neg hc]]
        have hmax : max m x.level = m := max_eq_left (le_of_not_lt hc)
        have hM : maxSeverity m (x :: xs) = maxSeverity m xs := by
          rw [maxSeverity_cons, hmax]
        rw [findq_cons_neg (fun r => decide (m < r.level ∧ maxSeverity m (x :: xs) ≤ r.level))
            x xs (by simp only [decide_eq_false_iff_not, not_and]; intro h1; exact absurd h1 hc)]
        rw [ih m p]
        rw [show (fun r : TrigRec => decide (m < r.level ∧ maxSeverity m xs ≤ r.level))
              = (fun r : TrigRec => decide (m < r.level ∧ maxSeverity m (x :: xs) ≤ r.level)) by
            funext r; rw [hM]]

-- ============================================
-- Bounds and membership of the emitted record lists
-- ============================================

theorem optRec_length (c : Prop) [Decidable c] (r : TrigRec) :
    (optRec c r).length ≤ 1 := by
  unfold optRec; split <;> simp

theorem mem_optRec {c : Prop} [Decidable c] {r x : TrigRec}
    (h : x ∈ optRec c r) : x = r := by
  unfold optRec at h
  split at h
  · exact List.mem_singleton.mp h
  · cases h

theorem coRecords_length (st : SystemState) : (coRecords st).length ≤ 1 := by
  unfold coRecords; split_ifs <;> simp

theorem gplRecords_length (st : SystemState) : (gplRecords st).length ≤ 1 := by
  unfold gplRecords; split_ifs <;> simp

theorem smokeRecords_length (st : SystemState) : (smokeRecords st).length ≤ 1 := by
  unfold smokeRecords; split_ifs <;> simp

theorem gasRecords_length (st : SystemState) : (gasRecords st).length ≤ 3 := by
  unfold gasRecords
  simp only [List.length_append]
  have h1 := coRecords_length st
  have h2 := gplRecords_length st
  have h3 := smokeRecords_length st
  omega

/-- The 12V-low ladder and the 12V-high check are mutually exclusive (a voltage
below 11.5 V cannot exceed 14.5 V), so the rail emits at most one record. -/
theorem rail12_length (st : SystemState) :
    (volt12LowRecords st).length
      + (optRec (st.power.voltage12VValid ∧ VOLTAGE_12V_MAX < st.power.voltage12V)
          ⟨AlertType.VOLTAGE_12V_HIGH, AlertLevel.warning, st.power.voltage12V,
            VOLTAGE_12V_MAX, "Surtension 12V"⟩).length ≤ 1 := by
  by_cases hh : st.power.voltage12VValid ∧ VOLTAGE_12V_MAX < st.power.voltage12V
  · have hv := hh.2
    rw [show VOLTAGE_12V_MAX = (29/2 : ℚ) by norm_num [VOLTAGE_12V_MAX]] at hv
    have h1 : ¬(st.power.voltage12VValid ∧ st.power.voltage12V < VOLTAGE_12V_MIN) := by
      rintro ⟨_, hw⟩
      rw [show VOLTAGE_12V_MIN = (21/2 : ℚ) by norm_num [VOLTAGE_12V_MIN]] at hw
      linarith
    have h2 : ¬(st.power.voltage12VValid ∧ st.power.voltage12V < VOLTAGE_12V_WARNING) := by
      rintro ⟨_, hw⟩
      rw [show VOLTAGE_12V_WARNING = (23/2 : ℚ) by norm_num [VOLTAGE_12V_WARNING]] at hw
      linarith
    unfold volt12LowRecords optRec
    rw [if_neg h1, if_neg h2, if_pos hh]
    simp
  · unfold volt12LowRecords optRec
    rw [if_neg hh]
    split_ifs <;> simp

/-- The 5V-low and 5V-high checks are mutually exclusive. -/
theorem rail5_length (st : SystemState) :
    (optRec (st.power.voltage5VValid ∧ st.power.voltage5V < VOLTAGE_5V_MIN)
        ⟨AlertType.VOLTAGE_5V_LOW, AlertLevel.danger, st.power.voltage5V,
          VOLTAGE_5V_MIN, "5V CRITIQUE!"⟩).length
      + (optRec (st.power.voltage5VValid ∧ VOLTAGE_5V_MAX < st.power.voltage5V)
          ⟨AlertType.VOLTAGE_5V_HIGH, AlertLevel.warning, st.power.voltage5V,
            VOLTAGE_5V_MAX, "Surtension 5V"⟩).length ≤ 1 := by
  by_cases hh : st.power.voltage5VValid ∧ VOLTAGE_5V_MAX < st.power.voltage5V
  · have hv := hh.2
    rw [show VOLTAGE_5V_MAX = (11/2 : ℚ) by norm_num [VOLTAGE_5V_MAX]] at hv
    have h1 : ¬(st.power.voltage5VValid ∧ st.power.voltage5V < VOLTAGE_5V_MIN) := by
      rintro ⟨_, hw⟩
      rw [show VOLTAGE_5V_MIN = (9/2 : ℚ) by norm_num [VOLTAGE_5V_MIN]] at hw
      linarith
    unfold optRec
    rw [if_neg h1, if_pos hh]
    simp
  · unfold optRec
    rw [if_neg hh]
    split_ifs <;> simp

theorem powerRecords_length (st : SystemState) : (powerRecords st).length ≤ 4 := by
  unfold powerRecords
  simp only [List.length_append]
  have h1 := rail12_length st
  have h2 := rail5_length st
  have h3 := optRec_length (st.power.voltage12VValid ∧ CURRENT_12V_MAX < st.power.current12V)
    (⟨AlertType.CURRENT_12V_HIGH, AlertLevel.warning, st.power.current12V,
      CURRENT_12V_MAX, "Surintensity 12V"⟩ : TrigRec)
  have h4 := optRec_length (st.power.voltage5VValid ∧ CURRENT_5V_MAX < st.power.current5V)
    (⟨AlertType.CURRENT_5V_HIGH, AlertLevel.warning, st.power.current5V,
      CURRENT_5V_MAX, "Surintensity 5V"⟩ : TrigRec)
  omega

/-- High- and low-temperature checks are mutually exclusive. -/
theorem temp_length (st : SystemState) :
    (optRec (st.environment.tempIntValid ∧ TEMP_WARNING < st.environment.tempInterior)
        ⟨AlertType.TEMP_HIGH, AlertLevel.warning, st.environment.tempInterior,
          TEMP_WARNING, "Temp elevee"⟩).length
      + (optRec (st.environment.tempIntValid ∧ st.environment.tempInterior < 0)
          ⟨AlertType.TEMP_LOW, AlertLevel.warning, st.environment.tempInterior,
            0, "Temp basse"⟩).length ≤ 1 := by
  by_cases hh : st.environment.tempIntValid ∧ TEMP_WARNING < st.environment.tempInterior
  · have hv := hh.2
    rw [show TEMP_WARNING = (35 : ℚ) from rfl] at hv
    have h1 : ¬(st.environment.tempIntValid ∧ st.environment.tempInterior < 0) := by
      rintro ⟨_, hw⟩
      linarith
    unfold optRec
    rw [if_pos hh, if_neg h1]
    simp
  · unfold optRec
    rw [if_neg hh]
    split_ifs <;> simp

theorem envRecords_length (st : SystemState) : (envRecords st).length ≤ 2 := by
  unfold envRecords
  simp only [List.length_append]
  have h1 := temp_length st
  have h2 := optRec_length
    (st.environment.humidityValid ∧ HUMIDITY_WARNING < st.environment.humidity)
    (⟨AlertType.HUMIDITY_HIGH, AlertLevel.info, st.environment.humidity,
      HUMIDITY_WARNING, "Humidite haute"⟩ : TrigRec)
  omega

theorem levelRecords_length (st : SystemState) : (levelRecords st).length ≤ 1 := by
  unfold levelRecords
  exact optRec_length _ _

/-- One evaluation cycle can fire at most 10 threshold checks: 3 gas, 4 power
(the 12V-low/high and 5V-low/high pairs being mutually exclusive), 2
environment (high/low temperature being mutually exclusive), 1 tilt.  The
capacity-10 buffer therefore never drops a record during `checkAlerts`. -/
theorem cycleRecords_length (st : SystemState) : (cycleRecords st).length ≤ 10 := by
  unfold cycleRecords
  simp only [List.length_append]
  have h1 := gasRecords_length st
  have h2 := powerRecords_length st
  have h3 := envRecords_length st
  have h4 := levelRecords_length st
  split <;> simp <;> omega

theorem mem_coRecords {st : SystemState} {x : TrigRec} (h : x ∈ coRecords st) :
    x.type = AlertType.CO_HIGH ∧ AlertLevel.info ≤ x.level := by
  unfold coRecords at h
  split_ifs at h <;>
    first
      | exact (List.not_mem_nil x h).elim
      | (rw [List.mem_singleton] at h; subst h; exact ⟨rfl, by dsimp only; decide⟩)

theorem mem_gplRecords {st : SystemState} {x : TrigRec} (h : x ∈ gplRecords st) :
    x.type = AlertType.GPL_HIGH ∧ AlertLevel.info ≤ x.level := by
  unfold gplRecords at h
  split_ifs at h <;>
    first
      | exact (List.not_mem_nil x h).elim
      | (rw [List.mem_singleton] at h; subst h; exact ⟨rfl, by dsimp only; decide⟩)

theorem mem_smokeRecords {st : SystemState} {x : TrigRec} (h : x ∈ smokeRecords st) :
    x.type = AlertType.SMOKE_HIGH ∧ AlertLevel.info ≤ x.level := by
  unfold smokeRecords at h
  split_ifs at h <;>
    first
      | exact (List.not_mem_nil x h).elim
      | (rw [List.mem_singleton] at h; subst h; exact ⟨rfl, by dsimp only; decide⟩)

theorem mem_volt12LowRecords {st : SystemState} {x : TrigRec}
    (h : x ∈ volt12LowRecords st) :
    x.type = AlertType.VOLTAGE_12V_LOW ∧ AlertLevel.info ≤ x.level := by
  unfold volt12LowRecords at h
  split_ifs at h <;>
    first
      | exact (List.not_mem_nil x h).elim
      | (rw [List.mem_singleton] at h; subst h; exact ⟨rfl, by dsimp only; decide⟩)

theorem mem_powerRecords {st : SystemState} {x : TrigRec} (h : x ∈ powerRecords st) :
    (x.type = AlertType.VOLTAGE_12V_LOW ∨ x.type = AlertType.VOLTAGE_12V_HIGH
      ∨ x.type = AlertType.VOLTAGE_5V_LOW ∨ x.type = AlertType.VOLTAGE_5V_HIGH
      ∨ x.type = AlertType.CURRENT_12V_HIGH ∨ x.type = AlertType.CURRENT_5V_HIGH)
    ∧ AlertLevel.info ≤ x.level := by
  unfold powerRecords at h
  simp only [List.mem_append] at h
  rcases h with ((((h | h) | h) | h) | h) | h
  · exact ⟨Or.inl (mem_volt12LowRecords h).1, (mem_volt12LowRecords h).2⟩
  · rw [mem_optRec h]; exact ⟨by simp, by dsimp only; decide⟩
  · rw [mem_optRec h]; exact ⟨by simp, by dsimp only; decide⟩
  · rw [mem_optRec h]; exact ⟨by simp, by dsimp only; decide⟩
  · rw [mem_optRec h]; exact ⟨by simp, by dsimp only; decide⟩
  · rw [mem_optRec h]; exact ⟨by simp, by dsimp only; decide⟩

theorem mem_envRecords {st : SystemState} {x : TrigRec} (h : x ∈ envRecords st) :
    (x.type = AlertType.TEMP_HIGH ∨ x.type = AlertType.TEMP_LOW
      ∨ x.type = AlertType.HUMIDITY_HIGH)
    ∧ AlertLevel.info ≤ x.level := by
  unfold envRecords at h
  simp only [List.mem_append] at h
  rcases h with (h | h) | h
  · rw [mem_optRec h]; exact ⟨by simp, by dsimp only; decide⟩
  · rw [mem_optRec h]; exact ⟨by simp, by dsimp only; decide⟩
  · rw [mem_optRec h]; exact ⟨by simp, by dsimp only; decide⟩

theorem mem_levelRecords {st : SystemState} {x : TrigRec} (h : x ∈ levelRecords st) :
    x.type = AlertType.TILT_HIGH ∧ AlertLevel.info ≤ x.level := by
  unfold levelRecords at h
  rw [mem_optRec h]
  exact ⟨rfl, by dsimp only; decide⟩

/-- Every record a cycle emits carries severity at least INFO. -/
theorem cycleRecords_level_pos (st : SystemState) :
    ∀ x ∈ cycleRecords st, AlertLevel.info ≤ x.level := by
  intro x hx
  unfold cycleRecords gasRecords at hx
  simp only [List.mem_append] at hx
  rcases hx with ((hx | hx) | hx) | hx
  · split at hx
    · simp only [List.mem_append] at hx
      rcases hx with (hx | hx) | hx
      · exact (mem_coRecords hx).2
      · exact (mem_gplRecords hx).2
      · exact (mem_smokeRecords hx).2
    · cases hx
  · exact (mem_powerRecords hx).2
  · exact (mem_envRecords hx).2
  · exact (mem_levelRecords hx).2

/-- Every slot of the buffer after a fold of `addAlert` either still holds its
previous content or holds one of the added records in stored form. -/
theorem foldl_addAlertA_slot_cases (now : ℕ) (l : List TrigRec) :
    ∀ (a : AlertState) (i : Fin 10),
      (List.foldl (addAlertA now) a l).alerts i = a.alerts i
        ∨ ∃ r ∈ l, (List.foldl (addAlertA now) a l).alerts i = storedAlert now r := by
  induction l with
  | nil => intro a i; exact Or.inl rfl
  | cons r rs ih =>
      intro a i
      rw [List.foldl_cons]
      by_cases hfull : 10 ≤ a.activeAlertCount
      · rw [addAlertA_full now a r hfull]
        rcases ih a i with h | ⟨r1, hr1, he1⟩
        · exact Or.inl h
        · exact Or.inr ⟨r1, List.mem_cons_of_mem r hr1, he1⟩
      · rcases ih (addAlertA now a r) i with h | ⟨r1, hr1, he1⟩
        · rw [addAlertA_alerts now a r hfull, Function.update_apply] at h
          split at h
          · exact Or.inr ⟨r, List.mem_cons_self r rs, h⟩
          · exact Or.inl h
        · exact Or.inr ⟨r1, List.mem_cons_of_mem r hr1, he1⟩

-- ============================================
-- Claim theorems
-- ============================================

/-- C1: for every cycle, after `checkAlerts` runs, `state.alerts.currentLevel`
equals the maximum severity over all AlertRecords emitted in that cycle (and
NONE when no record was emitted), and `state.alerts.primaryAlert` is the type
of the earliest-inserted record having that maximum severity. -/
theorem checkAlerts_severity_arbitration (a : AlertSys) (st : SystemState) (now : ℕ)
    (h : a.initialized = true) :
    (checkAlerts a st now).2.alerts.currentLevel
        = maxSeverity AlertLevel.none (cycleRecords st)
    ∧ (checkAlerts a st now).2.alerts.primaryAlert = primaryOf (cycleRecords st) := by
  rw [checkAlerts_eq_fold a st now h, updateAlertMode_currentLevel,
      updateAlertMode_primaryAlert, foldl_addAlertRec_alerts]
  have hlen : (resetAlertCycle st).alerts.activeAlertCount + (cycleRecords st).length ≤ 10 := by
    have hc := cycleRecords_length st
    have h0 : (resetAlertCycle st).alerts.activeAlertCount = 0 := rfl
    omega
  have hpair := foldl_addAlertA_pair now (cycleRecords st) (resetAlertCycle st).alerts hlen
  have h1 := congrArg Prod.fst hpair
  have h2 := congrArg Prod.snd hpair
  simp only [] at h1 h2
  have hcl : (resetAlertCycle st).alerts.currentLevel = AlertLevel.none := rfl
  have hpa : (resetAlertCycle st).alerts.primaryAlert = AlertType.NONE := rfl
  rw [hcl, hpa] at h1 h2
  constructor
  · rw [h1, foldl_arbStep_fst]
  · rw [h2, foldl_arbStep_snd]
    unfold primaryOf
    rw [findq_congr_mem
          (fun r => decide (AlertLevel.none < r.level
            ∧ maxSeverity AlertLevel.none (cycleRecords st) ≤ r.level))
          (fun r => decide (r.level = maxSeverity AlertLevel.none (cycleRecords st)))
          (cycleRecords st) ?_]
    intro x hx
    rw [decide_eq_decide]
    constructor
    · rintro ⟨_, h2'⟩
      exact le_antisymm (level_le_maxSeverity (cycleRecords st) AlertLevel.none x hx) h2'
    · intro he
      refine ⟨?_, le_of_eq he.symm⟩
      exact lt_of_lt_of_le (by decide : AlertLevel.none < AlertLevel.info)
        (cycleRecords_level_pos st x hx)

/-- C1 witness: the theorem applied to a concrete initialised system in which
one WARNING CO record is emitted. -/
theorem checkAlerts_severity_arbitration_witness :
    alertSysReady.initialized = true
    ∧ ((checkAlerts alertSysReady (coOnlyState 250) 0).2.alerts.currentLevel
          = maxSeverity AlertLevel.none (cycleRecords (coOnlyState 250))
        ∧ (checkAlerts alertSysReady (coOnlyState 250) 0).2.alerts.primaryAlert
          = primaryOf (cycleRecords (coOnlyState 250))) :=
  ⟨rfl, checkAlerts_severity_arbitration alertSysReady (coOnlyState 250) 0 rfl⟩

/-- C2: for every severity level L, after `updateAlertMode`, navigation is
blocked iff L is DANGER or CRITICAL, the buzzer is active iff L is WARNING,
DANGER or CRITICAL, and `updateBuzzer` drives the cadence: continuous tone for
CRITICAL (interval 0), an interval-200 ms toggle for DANGER, an interval-1000 ms
toggle for WARNING (each toggling exactly when the interval has elapsed since
the last toggle), and the buzzer stays off and never toggles for INFO or NONE
(buzzer inactive). -/
theorem alertMode_buzzer_contract :
    (∀ (a : AlertSys) (st : SystemState),
      ((updateAlertMode a st).2.alerts.blockNavigation = true
          ↔ (st.alerts.currentLevel = AlertLevel.danger
              ∨ st.alerts.currentLevel = AlertLevel.critical))
      ∧ ((updateAlertMode a st).2.alerts.buzzerActive = true
          ↔ (st.alerts.currentLevel = AlertLevel.warning
              ∨ st.alerts.currentLevel = AlertLevel.danger
              ∨ st.alerts.currentLevel = AlertLevel.critical))
      ∧ (st.alerts.currentLevel = AlertLevel.critical
          → (updateAlertMode a st).1.buzzerInterval = 0)
      ∧ (st.alerts.currentLevel = AlertLevel.danger
          → (updateAlertMode a st).1.buzzerInterval = 200)
      ∧ (st.alerts.currentLevel = AlertLevel.warning
          → (updateAlertMode a st).1.buzzerInterval = 1000))
    ∧ (∀ (a : AlertSys) (st : SystemState) (now : ℕ),
      st.sensors.buzzer = true → a.buzzerPtr = true →
      (st.alerts.buzzerActive = true → a.buzzerInterval = 0 →
          (updateBuzzer a st now).buzzerState = true)
      ∧ (st.alerts.buzzerActive = true → 0 < a.buzzerInterval →
          (updateBuzzer a st now).buzzerState
            = (if a.buzzerInterval ≤ now - a.lastBuzzerToggle
                then !a.buzzerState else a.buzzerState)
          ∧ (a.buzzerInterval ≤ now - a.lastBuzzerToggle
              → (updateBuzzer a st now).lastBuzzerToggle = now)
          ∧ (¬ a.buzzerInterval ≤ now - a.lastBuzzerToggle
              → (updateBuzzer a st now).lastBuzzerToggle = a.lastBuzzerToggle))
      ∧ (st.alerts.buzzerActive = false → (updateBuzzer a st now).buzzerState = false)) := by
  constructor
  · intro a st
    unfold updateAlertMode
    rcases hl : st.alerts.currentLevel <;> simp [hl]
  · intro a st now hbz hptr
    refine ⟨?_, ?_, ?_⟩
    · intro hact hint
      unfold updateBuzzer
      rw [if_neg (by simp [hbz, hptr]), if_neg (by simp [hact]), if_pos hint]
      split <;> simp_all
    · intro hact hint
      unfold updateBuzzer
      rw [if_neg (by simp [hbz, hptr]), if_neg (by simp [hact]),
          if_neg (by omega)]
      constructor
      · split <;> simp
      · constructor
        · intro ht; rw [if_pos ht]
        · intro ht; rw [if_neg ht]
    · intro hact
      unfold updateBuzzer
      rw [if_neg (by simp [hbz, hptr]), if_pos (by simp [hact])]
      split <;> simp_all

/-- C2 witness: the contract applied to a concrete DANGER state with the
buzzer hardware present and a toggle due. -/
theorem alertMode_buzzer_contract_witness :
    ((coOnlyState 250).sensors.buzzer = true
      ∧ alertSysReady.buzzerPtr = true)
    ∧ ((updateAlertMode alertSysReady (coOnlyState 250)).2.alerts.blockNavigation = true
        ↔ ((coOnlyState 250).alerts.currentLevel = AlertLevel.danger
            ∨ (coOnlyState 250).alerts.currentLevel = AlertLevel.critical)) :=
  ⟨⟨rfl, rfl⟩, (alertMode_buzzer_contract.1 alertSysReady (coOnlyState 250)).1⟩

/-- C3 counterexample: twelve simultaneous violations delivered to the alert
buffer in one cycle (ten INFO records, then two CRITICAL ones).  Exactly 10
records are stored, but `currentLevel` is INFO, not the true maximum severity
CRITICAL among the twelve: `addAlert` returns before the severity update once
the buffer is full, so dropped records never enter arbitration. -/
theorem addAlert_overflow_counterexample :
    twelveRecs.length = 12
    ∧ (List.foldl (addAlertA 0) initAlertState twelveRecs).activeAlertCount = 10
    ∧ maxSeverity AlertLevel.none twelveRecs = AlertLevel.critical
    ∧ (List.foldl (addAlertA 0) initAlertState twelveRecs).currentLevel = AlertLevel.info
    ∧ (List.foldl (addAlertA 0) initAlertState twelveRecs).currentLevel
        ≠ maxSeverity AlertLevel.none twelveRecs := by
  refine ⟨by decide, by decide, by decide, by decide, by decide⟩

/-- C3 amended: twelve records added in one cycle leave exactly 10 stored, and
`currentLevel` equals the maximum severity among the first ten inserted (the
two dropped records are not considered).  Moreover a `checkAlerts` cycle can
emit at most 10 records, so twelve simultaneous threshold violations cannot
arise from the evaluation engine itself. -/
theorem addAlert_overflow_truncation (now : ℕ) (l : List TrigRec)
    (h : l.length = 12) :
    (List.foldl (addAlertA now) initAlertState l).activeAlertCount = 10
    ∧ (List.foldl (addAlertA now) initAlertState l).currentLevel
        = maxSeverity AlertLevel.none (l.take 10)
    ∧ ∀ st : SystemState, (cycleRecords st).length ≤ 10 := by
  have h0 : initAlertState.activeAlertCount = 0 := rfl
  have htake : (10 : ℕ) - initAlertState.activeAlertCount = 10 := rfl
  have hlen10 : (l.take 10).length = 10 := by
    rw [List.length_take, h]
    rfl
  have hbound : initAlertState.activeAlertCount + (l.take 10).length ≤ 10 := by
    rw [h0, hlen10]
  refine ⟨?_, ?_, fun st => cycleRecords_length st⟩
  · rw [foldl_addAlertA_drop, htake,
        foldl_addAlertA_count now (l.take 10) initAlertState hbound, h0, hlen10]
  · rw [foldl_addAlertA_drop, htake]
    have hpair := foldl_addAlertA_pair now (l.take 10) initAlertState hbound
    have h1 := congrArg Prod.fst hpair
    simp only [] at h1
    have hcl : initAlertState.currentLevel = AlertLevel.none := rfl
    have hpa : initAlertState.primaryAlert = AlertType.NONE := rfl
    rw [hcl, hpa] at h1
    rw [h1, foldl_arbStep_fst]

/-- C3 amended witness: the truncation theorem applied to the concrete
twelve-record list. -/
theorem addAlert_overflow_truncation_witness :
    twelveRecs.length = 12
    ∧ ((List.foldl (addAlertA 0) initAlertState twelveRecs).activeAlertCount = 10
        ∧ (List.foldl (addAlertA 0) initAlertState twelveRecs).currentLevel
            = maxSeverity AlertLevel.none (twelveRecs.take 10)
        ∧ ∀ st : SystemState, (cycleRecords st).length ≤ 10) :=
  ⟨by decide, addAlert_overflow_truncation 0 twelveRecs (by decide)⟩

/-- C4 counterexample: with the CO reading valid, preheated and `coPPM = 50`,
`checkAlerts` stores no record at all — the INFO rung fires only strictly above
the 50 ppm threshold (`coPPM > CO_THRESHOLD_INFO`), so the claimed INFO alert
at exactly 50 ppm does not exist. -/
theorem co_at_50_counterexample :
    (checkAlerts alertSysReady (coOnlyState 50) 0).2.alerts.activeAlertCount = 0
    ∧ (checkAlerts alertSysReady (coOnlyState 50) 0).2.alerts.currentLevel
        = AlertLevel.none := by
  refine ⟨by decide, by decide⟩

theorem countP_coRecords_le (st : SystemState) :
    (coRecords st).countP (fun r => decide (r.type = AlertType.CO_HIGH)) ≤ 1 :=
  le_trans (List.countP_le_length _) (coRecords_length st)

/-- No list of a non-CO category contributes a CO record. -/
theorem countP_co_eq_zero {l : List TrigRec}
    (h : ∀ x ∈ l, x.type ≠ AlertType.CO_HIGH) :
    l.countP (fun r => decide (r.type = AlertType.CO_HIGH)) = 0 := by
  rw [List.countP_eq_zero]
  intro x hx
  simp only [decide_eq_true_eq]
  exact h x hx

/-- Within one cycle the CO category emits at most one record. -/
theorem cycle_co_count (st : SystemState) :
    (cycleRecords st).countP (fun r => decide (r.type = AlertType.CO_HIGH)) ≤ 1 := by
  unfold cycleRecords gasRecords
  simp only [List.countP_append]
  have hgpl := countP_co_eq_zero (l := gplRecords st)
    (fun x hx => by rw [(mem_gplRecords hx).1]; decide)
  have hsmoke := countP_co_eq_zero (l := smokeRecords st)
    (fun x hx => by rw [(mem_smokeRecords hx).1]; decide)
  have hpow := countP_co_eq_zero (l := powerRecords st)
    (fun x hx => by
      rcases (mem_powerRecords hx).1 with h | h | h | h | h | h <;> rw [h] <;> decide)
  have henv := countP_co_eq_zero (l := envRecords st)
    (fun x hx => by
      rcases (mem_envRecords hx).1 with h | h | h <;> rw [h] <;> decide)
  have hlev := countP_co_eq_zero (l := levelRecords st)
    (fun x hx => by rw [(mem_levelRecords hx).1]; decide)
  have hco := countP_coRecords_le st
  split
  · simp only [List.countP_append]
    omega
  · simp only [List.countP_nil]
    omega

/-- C4 amended: with preheated sensors and a valid CO reading, `checkAlerts`
on CO ppm values strictly above the info threshold — 51, 250 and 450 — emits
exactly one CO record of severity INFO, WARNING and CRITICAL respectively
(at exactly 50 ppm no record is emitted, see the counterexample), and in any
cycle the CO category emits at most one record, never two. -/
theorem co_threshold_ladder :
    ((checkAlerts alertSysReady (coOnlyState 51) 0).2.alerts.activeAlertCount = 1
      ∧ ((checkAlerts alertSysReady (coOnlyState 51) 0).2.alerts.alerts (0 : Fin 10)).type
          = AlertType.CO_HIGH
      ∧ ((checkAlerts alertSysReady (coOnlyState 51) 0).2.alerts.alerts (0 : Fin 10)).level
          = AlertLevel.info)
    ∧ ((checkAlerts alertSysReady (coOnlyState 250) 0).2.alerts.activeAlertCount = 1
      ∧ ((checkAlerts alertSysReady (coOnlyState 250) 0).2.alerts.alerts (0 : Fin 10)).type
          = AlertType.CO_HIGH
      ∧ ((checkAlerts alertSysReady (coOnlyState 250) 0).2.alerts.alerts (0 : Fin 10)).level
          = AlertLevel.warning)
    ∧ ((checkAlerts alertSysReady (coOnlyState 450) 0).2.alerts.activeAlertCount = 1
      ∧ ((checkAlerts alertSysReady (coOnlyState 450) 0).2.alerts.alerts (0 : Fin 10)).type
          = AlertType.CO_HIGH
      ∧ ((checkAlerts alertSysReady (coOnlyState 450) 0).2.alerts.alerts (0 : Fin 10)).level
          = AlertLevel.critical)
    ∧ (∀ st : SystemState,
        (cycleRecords st).countP (fun r => decide (r.type = AlertType.CO_HIGH)) ≤ 1) := by
  refine ⟨⟨by decide, by decide, by decide⟩, ⟨by decide, by decide, by decide⟩,
    ⟨by decide, by decide, by decide⟩, cycle_co_count⟩

/-- C5: evaluation of the code at the failing input.  After preheat, with the
heating cycle in the high (cleaning) phase, a read of 511 ADC counts whose
curve value is a valid-range 250 ppm: the sensor itself marks the reading
invalid (`isReadingValid = false`, `currentData.valid = false`), yet
`SensorManager::updateMQ7` accepts it (`coValid = true`) because it never
consults the sensor validity, and `checkAlerts` then emits a CO WARNING
record.  The same reading during the low phase yields the same record with
the sensor reading genuinely valid — the spec (and the sensor documentation)
require the high-phase case to emit nothing. -/
theorem mq7_highPhase_alert_bug :
    ((mq7Update co250Curve mq7HighPhaseState 511 1000010).2 = true
      ∧ mq7IsReadingValid (mq7Update co250Curve mq7HighPhaseState 511 1000010).1 = false
      ∧ (mq7Update co250Curve mq7HighPhaseState 511 1000010).1.currentData.valid = false
      ∧ (updateMQ7 co250Curve gasHostState mq7HighPhaseState 511 1000010).1.safety.coValid
          = true
      ∧ (updateMQ7 co250Curve gasHostState mq7HighPhaseState 511 1000010).1.safety.coPPM
          = 250
      ∧ (checkAlerts alertSysReady
          (updateMQ7 co250Curve gasHostState mq7HighPhaseState 511 1000010).1
          1000010).2.alerts.activeAlertCount = 1
      ∧ ((checkAlerts alertSysReady
          (updateMQ7 co250Curve gasHostState mq7HighPhaseState 511 1000010).1
          1000010).2.alerts.alerts (0 : Fin 10)).type = AlertType.CO_HIGH
      ∧ ((checkAlerts alertSysReady
          (updateMQ7 co250Curve gasHostState mq7HighPhaseState 511 1000010).1
          1000010).2.alerts.alerts (0 : Fin 10)).level = AlertLevel.warning)
    ∧ (mq7IsReadingValid (mq7Update co250Curve mq7LowPhaseState 511 1000010).1 = true
      ∧ (checkAlerts alertSysReady
          (updateMQ7 co250Curve gasHostState mq7LowPhaseState 511 1000010).1
          1000010).2.alerts.activeAlertCount = 1
      ∧ ((checkAlerts alertSysReady
          (updateMQ7 co250Curve gasHostState mq7LowPhaseState 511 1000010).1
          1000010).2.alerts.alerts (0 : Fin 10)).type = AlertType.CO_HIGH
      ∧ ((checkAlerts alertSysReady
          (updateMQ7 co250Curve gasHostState mq7LowPhaseState 511 1000010).1
          1000010).2.alerts.alerts (0 : Fin 10)).level = AlertLevel.warning) := by
  exact ⟨⟨by with_unfolding_all rfl, by with_unfolding_all rfl, by with_unfolding_all rfl,
    by with_unfolding_all rfl, by with_unfolding_all rfl, by with_unfolding_all rfl,
    by with_unfolding_all rfl, by with_unfolding_all rfl⟩,
    by with_unfolding_all rfl, by with_unfolding_all rfl, by with_unfolding_all rfl,
    by with_unfolding_all rfl⟩

/-- C6: the CO sensor heating cycle advances only by elapsed time measured
against the phase-start timestamp, follows the cyclic order Preheating, then
HighPhase, then LowPhase, then HighPhase, and so on, never skipping a phase
(each update moves to the current phase or to its cyclic successor, exactly
when the configured duration has elapsed, resetting the phase-start timestamp
on transition); `begin` establishes the well-formedness invariant, `update`
changes the phase exactly as `updateHeatingPhase` does, and the reading-valid
flag can be true only while the phase is LowPhase. -/
theorem mq7_heating_cycle_invariants :
    (∀ (s : MQ7State) (now : ℕ), mq7WF s → s.phaseStartTime ≤ now →
      mq7WF (updateHeatingPhase s now)
      ∧ (phaseOf (updateHeatingPhase s now) = phaseOf s
          ∨ phaseOf (updateHeatingPhase s now) = nextPhase (phaseOf s))
      ∧ (phaseOf (updateHeatingPhase s now) ≠ phaseOf s
          ↔ phaseDuration (phaseOf s) ≤ now - s.phaseStartTime)
      ∧ (phaseOf (updateHeatingPhase s now) ≠ phaseOf s
          → (updateHeatingPhase s now).phaseStartTime = now)
      ∧ (phaseOf (updateHeatingPhase s now) = phaseOf s
          → (updateHeatingPhase s now).phaseStartTime = s.phaseStartTime))
    ∧ (∀ (s : MQ7State) (now : ℕ), mq7WF (mq7Begin s now))
    ∧ (∀ (pc : ℚ → ℚ) (s : MQ7State) (raw now : ℕ),
      phaseOf (mq7Update pc s raw now).1 = phaseOf (updateHeatingPhase s now)
      ∧ (mq7Update pc s raw now).1.phaseStartTime
          = (updateHeatingPhase s now).phaseStartTime
      ∧ (mq7Update pc s raw now).1.isLowPhase = (updateHeatingPhase s now).isLowPhase)
    ∧ (∀ s : MQ7State, mq7WF s → mq7IsReadingValid s = true
        → phaseOf s = MQ7Phase.lowPhase) := by
  refine ⟨?_, ?_, ?_, ?_⟩
  · intro s now hwf hts
    by_cases hpre : s.status = MQ7Status.PREHEATING
    · obtain ⟨hlow, hstart⟩ := hwf hpre
      by_cases ht : MQ7_PREHEAT_TIME ≤ now - s.initTime
      · refine ⟨?_, ?_, ?_, ?_, ?_⟩ <;>
          simp [updateHeatingPhase, phaseOf, nextPhase, phaseDuration, mq7WF,
            hpre, hlow, hstart, ht]
      · refine ⟨?_, ?_, ?_, ?_, ?_⟩ <;>
          simp [updateHeatingPhase, phaseOf, nextPhase, phaseDuration, mq7WF,
            hpre, hlow, hstart, ht]
    · rcases hlv : s.isLowPhase with _ | _
      · by_cases ht : MQ7_HIGH_PHASE_TIME ≤ now - s.phaseStartTime
        · refine ⟨?_, ?_, ?_, ?_, ?_⟩ <;>
            simp [updateHeatingPhase, phaseOf, nextPhase, phaseDuration, mq7WF,
              hpre, hlv, ht]
        · refine ⟨?_, ?_, ?_, ?_, ?_⟩ <;>
            simp [updateHeatingPhase, phaseOf, nextPhase, phaseDuration, mq7WF,
              hpre, hlv, ht]
      · by_cases ht : MQ7_LOW_PHASE_TIME ≤ now - s.phaseStartTime
        · refine ⟨?_, ?_, ?_, ?_, ?_⟩ <;>
            simp [updateHeatingPhase, phaseOf, nextPhase, phaseDuration, mq7WF,
              hpre, hlv, ht]
        · refine ⟨?_, ?_, ?_, ?_, ?_⟩ <;>
            simp [updateHeatingPhase, phaseOf, nextPhase, phaseDuration, mq7WF,
              hpre, hlv, ht]
  · intro s now
    intro h
    exact ⟨rfl, rfl⟩
  · intro pc s raw now
    unfold mq7Update mq7ReadSensor
    dsimp only
    split_ifs <;> simp [phaseOf]
  · intro s hwf hv
    unfold mq7IsReadingValid at hv
    rw [Bool.and_eq_true] at hv
    unfold phaseOf
    by_cases hpre : s.status = MQ7Status.PREHEATING
    · have hlow := (hwf hpre).1
      rw [hlow] at hv
      exact absurd hv.1 (by decide)
    · rw [if_neg hpre, if_pos hv.1]

/-- C6 witness: the invariants applied to the freshly begun sensor at the
moment its preheat elapses (it transitions from Preheating to HighPhase). -/
theorem mq7_heating_cycle_invariants_witness :
    mq7WF mq7FreshState
    ∧ mq7FreshState.phaseStartTime ≤ 180000
    ∧ phaseOf (updateHeatingPhase mq7FreshState 180000)
        = nextPhase (phaseOf mq7FreshState)
    ∧ mq7WF (updateHeatingPhase mq7FreshState 180000) := by
  have h := (mq7_heating_cycle_invariants.1 mq7FreshState 180000
    (fun _ => ⟨rfl, rfl⟩) (by decide))
  refine ⟨fun _ => ⟨rfl, rfl⟩, by decide, ?_, h.1⟩
  rcases h.2.1 with hsame | hnext
  · exfalso
    have hiff := h.2.2.1
    have : phaseOf (updateHeatingPhase mq7FreshState 180000) ≠ phaseOf mq7FreshState := by
      rw [hiff]
      decide
    exact this hsame
  · exact hnext

/-- C7: `silenceBuzzer` turns the buzzer off immediately and leaves the whole
system state — in particular `state.alerts.currentLevel` and
`state.alerts.blockNavigation` and every other alert field — unchanged. -/
theorem silenceBuzzer_frame (a : AlertSys) (st : SystemState)
    (h : a.buzzerPtr = true) :
    (silenceBuzzer a st).1.buzzerState = false
    ∧ (silenceBuzzer a st).2 = st
    ∧ (silenceBuzzer a st).2.alerts.currentLevel = st.alerts.currentLevel
    ∧ (silenceBuzzer a st).2.alerts.blockNavigation = st.alerts.blockNavigation
    ∧ (silenceBuzzer a st).2.alerts = st.alerts := by
  unfold silenceBuzzer
  rw [if_pos h]
  exact ⟨rfl, rfl, rfl, rfl, rfl⟩

/-- C7 witness: silencing with the buzzer present on a concrete state. -/
theorem silenceBuzzer_frame_witness :
    alertSysReady.buzzerPtr = true
    ∧ (silenceBuzzer alertSysReady (coOnlyState 250)).1.buzzerState = false
    ∧ (silenceBuzzer alertSysReady (coOnlyState 250)).2 = coOnlyState 250 :=
  ⟨rfl, (silenceBuzzer_frame alertSysReady (coOnlyState 250) rfl).1,
    (silenceBuzzer_frame alertSysReady (coOnlyState 250) rfl).2.1⟩

/-- C8: while either gas sensor is still preheating, `checkAlerts` stores no
gas-category record at all (no CO, GPL or smoke record, whatever the current
gas values are); and `updatePreheat` raises each preheat flag exactly when its
configured one-shot duration (60 s for the MQ2, 180 s for the MQ7) has elapsed
since the preheat start. -/
theorem preheat_gas_gate :
    (∀ (a : AlertSys) (st : SystemState) (now : ℕ) (i : Fin 10),
      a.initialized = true →
      ¬(st.safety.mq7Preheated = true ∧ st.safety.mq2Preheated = true) →
      ((checkAlerts a st now).2.alerts.alerts i).active = true →
      ((checkAlerts a st now).2.alerts.alerts i).type ≠ AlertType.CO_HIGH
        ∧ ((checkAlerts a st now).2.alerts.alerts i).type ≠ AlertType.GPL_HIGH
        ∧ ((checkAlerts a st now).2.alerts.alerts i).type ≠ AlertType.SMOKE_HIGH)
    ∧ (∀ (m : SensorMgr) (st : SystemState) (now : ℕ),
      m.preheatComplete = false →
      ((updatePreheat m st now).2.safety.mq2Preheated
          = (st.safety.mq2Preheated || decide (PREHEAT_MQ2_TIME ≤ now - m.preheatStartTime)))
      ∧ ((updatePreheat m st now).2.safety.mq7Preheated
          = (st.safety.mq7Preheated || decide (PREHEAT_MQ7_TIME ≤ now - m.preheatStartTime)))) := by
  constructor
  · intro a st now i hinit hnp hact
    rw [checkAlerts_eq_fold a st now hinit, updateAlertMode_slots,
      foldl_addAlertRec_alerts] at hact ⊢
    rcases foldl_addAlertA_slot_cases now (cycleRecords st) (resetAlertCycle st).alerts i
      with hsame | ⟨r, hr, hstored⟩
    · exfalso
      rw [hsame] at hact
      have : ((resetAlertCycle st).alerts.alerts i).active = false := rfl
      rw [this] at hact
      exact Bool.false_ne_true hact
    · rw [hstored]
      unfold cycleRecords at hr
      rw [if_neg hnp] at hr
      simp only [List.nil_append, List.mem_append] at hr
      have htype : (storedAlert now r).type = r.type := rfl
      rw [htype]
      rcases hr with (hr | hr) | hr
      · rcases (mem_powerRecords hr).1 with h | h | h | h | h | h <;> rw [h] <;>
          exact ⟨by decide, by decide, by decide⟩
      · rcases (mem_envRecords hr).1 with h | h | h <;> rw [h] <;>
          exact ⟨by decide, by decide, by decide⟩
      · rw [(mem_levelRecords hr).1]
        exact ⟨by decide, by decide, by decide⟩
  · intro m st now hmc
    rcases hb2 : st.safety.mq2Preheated with _ | _ <;>
      rcases hb7 : st.safety.mq7Preheated with _ | _ <;>
        by_cases t2 : PREHEAT_MQ2_TIME ≤ now - m.preheatStartTime <;>
          by_cases t7 : PREHEAT_MQ7_TIME ≤ now - m.preheatStartTime <;>
            simp [updatePreheat, hmc, hb2, hb7, t2, t7]

/-- C8 witness: the gate applied to a preheating system whose only firing
check is the tilt warning, and the preheat timer evaluated at the MQ2
deadline. -/
theorem preheat_gas_gate_witness :
    (alertSysReady.initialized = true
      ∧ ¬(tiltOnlyState.safety.mq7Preheated = true
            ∧ tiltOnlyState.safety.mq2Preheated = true)
      ∧ ((checkAlerts alertSysReady tiltOnlyState 0).2.alerts.alerts (0 : Fin 10)).active
          = true
      ∧ (((checkAlerts alertSysReady tiltOnlyState 0).2.alerts.alerts (0 : Fin 10)).type
            ≠ AlertType.CO_HIGH
        ∧ ((checkAlerts alertSysReady tiltOnlyState 0).2.alerts.alerts (0 : Fin 10)).type
            ≠ AlertType.GPL_HIGH
        ∧ ((checkAlerts alertSysReady tiltOnlyState 0).2.alerts.alerts (0 : Fin 10)).type
            ≠ AlertType.SMOKE_HIGH))
    ∧ (mgrFixture.preheatComplete = false
      ∧ (updatePreheat mgrFixture tiltOnlyState 60000).2.safety.mq2Preheated
          = (tiltOnlyState.safety.mq2Preheated
              || decide (PREHEAT_MQ2_TIME ≤ 60000 - mgrFixture.preheatStartTime))) :=
  ⟨⟨rfl, by decide, by decide,
      preheat_gas_gate.1 alertSysReady tiltOnlyState 0 0 rfl (by decide) (by decide)⟩,
    ⟨rfl, (preheat_gas_gate.2 mgrFixture tiltOnlyState 60000 rfl).1⟩⟩

theorem mq7ReadSensor_fail (pc : ℚ → ℚ) (s : MQ7State) (raw now : ℕ)
    (hv : (raw : ℚ) / 1023 * 5 < 0.1) :
    (mq7ReadSensor pc s raw now).2 = false
    ∧ (mq7ReadSensor pc s raw now).1.currentData.ppm = s.currentData.ppm
    ∧ (mq7ReadSensor pc s raw now).1.currentData.rs = s.currentData.rs
    ∧ (mq7ReadSensor pc s raw now).1.currentData.valid = false := by
  unfold mq7ReadSensor
  dsimp only
  rw [if_pos hv]
  exact ⟨rfl, rfl, rfl, rfl⟩

theorem mq2ReadSensor_fail (c1 c2 c3 : ℚ → ℚ) (s : MQ2State) (raw now : ℕ)
    (hv : (raw : ℚ) / 1023 * 5 < 0.1) :
    (mq2ReadSensor c1 c2 c3 s raw now).2 = false
    ∧ (mq2ReadSensor c1 c2 c3 s raw now).1.currentData.lpg = s.currentData.lpg
    ∧ (mq2ReadSensor c1 c2 c3 s raw now).1.currentData.methane = s.currentData.methane
    ∧ (mq2ReadSensor c1 c2 c3 s raw now).1.currentData.smoke = s.currentData.smoke := by
  unfold mq2ReadSensor
  dsimp only
  rw [if_pos hv]
  exact ⟨rfl, rfl, rfl, rfl⟩

theorem updateMQ7_fail (pc : ℚ → ℚ) (st : SystemState) (s : MQ7State)
    (raw now : ℕ) (hv : (raw : ℚ) / 1023 * 5 < 0.1) :
    (updateMQ7 pc st s raw now).1 = st := by
  unfold updateMQ7
  rcases hms : st.sensors.mq7 with _ | _
  · rw [if_pos rfl]
  · rw [if_neg (by simp)]
    dsimp only
    have h2 : (mq7Update pc s raw now).2 = false := by
      unfold mq7Update
      dsimp only
      split_ifs
      all_goals first
        | rfl
        | exact (mq7ReadSensor_fail pc _ raw now hv).1
    rw [h2, if_neg Bool.false_ne_true]

theorem updateMQ2_fail (c1 c2 c3 : ℚ → ℚ) (st : SystemState) (s : MQ2State)
    (raw now : ℕ) (hv : (raw : ℚ) / 1023 * 5 < 0.1) :
    (updateMQ2 c1 c2 c3 st s raw now).1 = st := by
  unfold updateMQ2
  rcases hms : st.sensors.mq2 with _ | _
  · rw [if_pos rfl]
  · rw [if_neg (by simp)]
    dsimp only
    have h2 : (mq2Update c1 c2 c3 s raw now).2 = false := by
      unfold mq2Update
      dsimp only
      split_ifs
      all_goals first
        | rfl
        | exact (mq2ReadSensor_fail c1 c2 c3 _ raw now hv).1
    rw [h2, if_neg Bool.false_ne_true]

/-- C9 counterexample: a failed MQ2 read (ADC 0, so voltage 0 below the 0.1 V
floor) on a system whose stale LPG reading is still flagged valid.
`readSensor` returns false, but no validity flag is cleared anywhere: the MQ2
data struct has no validity flag, and the system-level `gplValid` stays true —
contradicting the claim that the validity flag is cleared for that cycle. -/
theorem mq2_read_failure_flag_counterexample :
    (mq2Update zeroCurve zeroCurve zeroCurve mq2StaleState 0 2000).2 = false
    ∧ gplValidState.safety.gplValid = true
    ∧ (updateMQ2 zeroCurve zeroCurve zeroCurve gplValidState mq2StaleState 0 2000).1
        = gplValidState
    ∧ (updateMQ2 zeroCurve zeroCurve zeroCurve gplValidState
        mq2StaleState 0 2000).1.safety.gplValid = true := by
  exact ⟨by with_unfolding_all rfl, rfl, by with_unfolding_all rfl,
    by with_unfolding_all rfl⟩

/-- C9 amended: a failed sensor read returns false and leaves the stored
gas-concentration measurements untouched; the MQ7 clears its internal
data-valid flag, but the MQ2 clears no flag at all, and at the system level a
failed read leaves the whole `SystemState` — including the previous validity
flags — unchanged, so no alert can be raised solely because of the failure
(the raw ADC value and voltage fields of the sensor data are overwritten by
the failed reading). -/
theorem read_failure_handling :
    (∀ (pc : ℚ → ℚ) (s : MQ7State) (raw now : ℕ),
        (raw : ℚ) / 1023 * 5 < 0.1 →
        (mq7ReadSensor pc s raw now).2 = false
        ∧ (mq7ReadSensor pc s raw now).1.currentData.ppm = s.currentData.ppm
        ∧ (mq7ReadSensor pc s raw now).1.currentData.rs = s.currentData.rs
        ∧ (mq7ReadSensor pc s raw now).1.currentData.valid = false)
    ∧ (∀ (c1 c2 c3 : ℚ → ℚ) (s : MQ2State) (raw now : ℕ),
        (raw : ℚ) / 1023 * 5 < 0.1 →
        (mq2ReadSensor c1 c2 c3 s raw now).2 = false
        ∧ (mq2ReadSensor c1 c2 c3 s raw now).1.currentData.lpg = s.currentData.lpg
        ∧ (mq2ReadSensor c1 c2 c3 s raw now).1.currentData.methane
            = s.currentData.methane
        ∧ (mq2ReadSensor c1 c2 c3 s raw now).1.currentData.smoke
            = s.currentData.smoke)
    ∧ (∀ (pc : ℚ → ℚ) (st : SystemState) (s : MQ7State) (raw now : ℕ),
        (raw : ℚ) / 1023 * 5 < 0.1 → (updateMQ7 pc st s raw now).1 = st)
    ∧ (∀ (c1 c2 c3 : ℚ → ℚ) (st : SystemState) (s : MQ2State) (raw now : ℕ),
        (raw : ℚ) / 1023 * 5 < 0.1 → (updateMQ2 c1 c2 c3 st s raw now).1 = st) :=
  ⟨fun pc s raw now hv => mq7ReadSensor_fail pc s raw now hv,
   fun c1 c2 c3 s raw now hv => mq2ReadSensor_fail c1 c2 c3 s raw now hv,
   fun pc st s raw now hv => updateMQ7_fail pc st s raw now hv,
   fun c1 c2 c3 st s raw now hv => updateMQ2_fail c1 c2 c3 st s raw now hv⟩

/-- C9 witness: the failure contract applied to ADC reading 0. -/
theorem read_failure_handling_witness :
    ((0 : ℚ) / 1023 * 5 < 0.1)
    ∧ (mq7ReadSensor zeroCurve mq7HighPhaseState 0 0).2 = false
    ∧ (updateMQ2 zeroCurve zeroCurve zeroCurve gplValidState mq2StaleState 0 2000).1
        = gplValidState :=
  ⟨by norm_num,
   (read_failure_handling.1 zeroCurve mq7HighPhaseState 0 0 (by norm_num)).1,
   read_failure_handling.2.2.2 zeroCurve zeroCurve zeroCurve gplValidState
     mq2StaleState 0 2000 (by norm_num)⟩

/-- C10: `getAlert` is total at the public interface: any index 10 or greater
returns a record whose active flag is false (no out-of-bounds read), and any
index below 10 returns the stored record at that index. -/
theorem getAlert_total (st : SystemState) (index : ℕ) :
    (10 ≤ index → (getAlert st index).active = false)
    ∧ (∀ h : index < 10, getAlert st index = st.alerts.alerts ⟨index, h⟩) := by
  constructor
  · intro h
    unfold getAlert
    rw [dif_neg (by omega)]
  · intro h
    unfold getAlert
    rw [dif_pos h]

/-- C10 witness: the bounds behaviour at indices 10 and 3. -/
theorem getAlert_total_witness :
    ((10 : ℕ) ≤ 10 ∧ (getAlert (coOnlyState 250) 10).active = false)
    ∧ ((3 : ℕ) < 10
        ∧ getAlert (coOnlyState 250) 3 = (coOnlyState 250).alerts.alerts ⟨3, by omega⟩) :=
  ⟨⟨by omega, (getAlert_total (coOnlyState 250) 10).1 (by omega)⟩,
   ⟨by omega, (getAlert_total (coOnlyState 250) 3).2 (by omega)⟩⟩
